import Mathlib

/-!
Verification development for the VR query-understanding core.

This file gives a shallow embedding of the repository code that the
claims concern:

* app/scene/router.py           (DecisionRouter.route and its helpers)
* backup_20251023_185126/app/scene/values.py   (NumericParser)
* app/tools/control.py          (the tool argument validator)
* app/rag/retriever.py          (Retriever.build_context)
* app/scene/defs.py             (resolve_definition)

Machine reals (Python floats) are modelled as rationals; all numeric
literals appearing in the code are exact decimals, and parsed decimal
strings are modelled exactly.  The ML-backed components (the zero-shot
intent classifier, the embedding entity resolver, the rapidfuzz partial
ratio, and the chat oracle used as LLM tie-break) are modelled as oracle
parameters, mirroring the spec, which treats them as black boxes.
Configuration files (absent from the repository; load_json returns an
empty dict on failure) are modelled as an explicit Config structure with
the same lookup defaults as the code.
-/

namespace VRCore

/-! ## String utilities

Python string operations used by the code: lower(), substring
containment (the in operator), startswith, strip. Modelled on character
lists; Char.toLower matches Python lower() on the ASCII texts involved.
-/

/-- Lowercase every character of a list, mirroring Python str.lower() on ASCII. -/
def lowerChars (l : List Char) : List Char := l.map Char.toLower

/-- Lowercase a string. -/
def lowerStr (s : String) : String := ⟨lowerChars s.toList⟩

/-- The needle list is an initial segment of the hay list. -/
def listHasPre : List Char → List Char → Bool
  | [], _ => true
  | _ :: _, [] => false
  | a :: as, b :: bs => a == b && listHasPre as bs

/-- Substring containment on char lists: Python (needle in hay). -/
def listHasSub (needle : List Char) : List Char → Bool
  | [] => listHasPre needle []
  | c :: t => listHasPre needle (c :: t) || listHasSub needle t

/-- Python substring test: needle in hay. -/
def strHasSub (hay needle : String) : Bool := listHasSub needle.toList hay.toList

/-- Python str.startswith. -/
def strHasPre (s pre : String) : Bool := listHasPre pre.toList s.toList

/-- Python whitespace class (the chars of the re \s class over ASCII). -/
def isSpaceCh (c : Char) : Bool :=
  c == ' ' || c == '\t' || c == '\n' || c == '\r' || c == '\x0b' || c == '\x0c'

/-- Python \w word characters over ASCII: letters, digits, underscore. -/
def isWordCh (c : Char) : Bool := c.isAlphanum || c == '_'

/-- Drop leading regex whitespace (a \s* step). -/
def dropSpaces : List Char → List Char
  | [] => []
  | c :: t => if isSpaceCh c then dropSpaces t else c :: t

/-- Drop leading colons and whitespace (the [:\s]* step of the labeled patterns). -/
def dropColonSpaces : List Char → List Char
  | [] => []
  | c :: t => if c == ':' || isSpaceCh c then dropColonSpaces t else c :: t

/-- Python str.strip(): remove leading and trailing whitespace. -/
def stripChars (l : List Char) : List Char :=
  ((l.dropWhile isSpaceCh).reverse.dropWhile isSpaceCh).reverse

/-- Python min over two floats (modelled on rationals, kept executable
as a plain conditional). -/
def rmin (a b : ℚ) : ℚ := if a ≤ b then a else b

/-! ## Decimal number scanning

The regular expressions of values.py all build on the number pattern
digits plus an optional dot-digits fraction.  The scanners below follow
the Python re semantics of those exact patterns, including the greedy
match and the only feasible backtracking steps (analysed per pattern in
the comments).
-/

/-- Split a maximal run of leading ASCII digits. -/
def takeDigits : List Char → List Char × List Char
  | [] => ([], [])
  | c :: t =>
    if c.isDigit then
      let p := takeDigits t
      (c :: p.1, p.2)
    else ([], c :: t)

/-- Numeric value of an ASCII digit character. -/
def digitVal (c : Char) : Nat :=
  if c = '0' then 0 else if c = '1' then 1 else if c = '2' then 2 else if c = '3' then 3
  else if c = '4' then 4 else if c = '5' then 5 else if c = '6' then 6 else if c = '7' then 7
  else if c = '8' then 8 else 9

/-- Numeric value of a digit run. -/
def digitsToNat (ds : List Char) : Nat :=
  ds.foldl (fun a c => a * 10 + digitVal c) 0

/-- Exact rational value of a decimal literal with integer part ip and
fraction digits fp, as produced by Python float() on such a literal
(modelled exactly). -/
def decToRat (ip fp : List Char) : ℚ :=
  (digitsToNat ip : ℚ) + (digitsToNat fp : ℚ) / ((10 : ℚ) ^ fp.length)

/-- Greedy match of the number core at the head of the list:
one or more digits, then optionally a dot followed by one or more
digits.  Returns (integer digits, fraction digits, rest); the fraction
digits are empty when the optional group did not participate. -/
def scanNumber (cs : List Char) : Option (List Char × List Char × List Char) :=
  let p := takeDigits cs
  if p.1.isEmpty then none
  else
    match p.2 with
    | '.' :: r2 =>
      let q := takeDigits r2
      if q.1.isEmpty then some (p.1, [], '.' :: r2) else some (p.1, q.1, q.2)
    | r1 => some (p.1, [], r1)

/-- True when the list starts with a word character. -/
def headIsWord : List Char → Bool
  | [] => false
  | c :: _ => isWordCh c

/-- First match of the percentage pattern of parse_brightness_contrast:
number, optional whitespace, percent sign.  Scanning advances one
character on failure, as re.findall does; when the trailing percent
check fails no shorter match at the same start can succeed (the char
after a maximal digit run is not a digit, so every backtracking branch
fails), hence the single greedy attempt per position is faithful. -/
def findPctAux : List Char → Option ℚ
  | [] => none
  | c :: cs =>
    match scanNumber (c :: cs) with
    | some (d1, d2, rest) =>
      match dropSpaces rest with
      | '%' :: _ => some (decToRat d1 d2)
      | _ => findPctAux cs
    | none => findPctAux cs

/-- First capture of the percentage regex over a string. -/
def findPct (s : String) : Option ℚ := findPctAux s.toList

/-- First match of the word-bounded number pattern of
parse_brightness_contrast: boundary, number, boundary.  The scan
carries the previous character to decide the left boundary.  When the
optional fraction matched but the right boundary fails, the only
successful backtracking branch drops the whole fraction (the dot is a
non-word character, giving a boundary after the integer digits); when
there is no fraction and the right boundary fails, no match starts at
this position. -/
def findBoundedNumAux : Option Char → List Char → Option ℚ
  | _, [] => none
  | prev, c :: cs =>
    let prevOk := match prev with
      | none => true
      | some p => !isWordCh p
    if prevOk && c.isDigit then
      match scanNumber (c :: cs) with
      | some (d1, d2, rest) =>
        if d2.isEmpty then
          if headIsWord rest then findBoundedNumAux (some c) cs
          else some (decToRat d1 [])
        else
          if headIsWord rest then some (decToRat d1 [])
          else some (decToRat d1 d2)
      | none => findBoundedNumAux (some c) cs
    else findBoundedNumAux (some c) cs

/-- First capture of the bounded number regex over a string. -/
def findBoundedNum (s : String) : Option ℚ := findBoundedNumAux none s.toList

/-- First number of the unbounded single-value pattern of
parse_implant_size: leftmost maximal number, no boundary conditions. -/
def findAnyNumAux : List Char → Option ℚ
  | [] => none
  | c :: cs =>
    match scanNumber (c :: cs) with
    | some (d1, d2, _) => some (decToRat d1 d2)
    | none => findAnyNumAux cs

/-- First capture of the single-value regex over a string. -/
def findAnyNum (s : String) : Option ℚ := findAnyNumAux s.toList

/-- The separator class of the dimension pattern.  The source literal
contains the bytes of a mojibake rendering, so the class is the three
characters x, U+221A and U+00F3. -/
def isDimSep (c : Char) : Bool := c == 'x' || c == '√' || c == 'ó'

/-- One attempt of the dimension pattern at the current position:
number, optional whitespace, separator, optional whitespace, number.
As above, failed attempts admit no successful backtracking, so the
greedy attempt is faithful. -/
def dimAttempt (cs : List Char) : Option (ℚ × ℚ) :=
  match scanNumber cs with
  | none => none
  | some (d1, d2, r1) =>
    match dropSpaces r1 with
    | [] => none
    | x :: r2 =>
      if isDimSep x then
        match scanNumber (dropSpaces r2) with
        | none => none
        | some (e1, e2, _) => some (decToRat d1 d2, decToRat e1 e2)
      else none

/-- re.search of the dimension pattern: first position admitting a match. -/
def findDimAux : List Char → Option (ℚ × ℚ)
  | [] => none
  | c :: cs =>
    match dimAttempt (c :: cs) with
    | some r => some r
    | none => findDimAux cs

/-- First match of the dimension regex over a string. -/
def findDim (s : String) : Option (ℚ × ℚ) := findDimAux s.toList

/-- Strip a literal label case-insensitively from the head of the list
(the patterns carry re.IGNORECASE); the label argument is lowercase. -/
def dropLabelCI : List Char → List Char → Option (List Char)
  | [], rest => some rest
  | _ :: _, [] => none
  | a :: as, b :: bs => if a == b.toLower then dropLabelCI as bs else none

/-- One attempt of a labeled pattern (label, then colons or spaces, then
a number) at the current position. -/
def labeledAttempt (label : List Char) (cs : List Char) : Option ℚ :=
  match dropLabelCI label cs with
  | none => none
  | some r1 =>
    match scanNumber (dropColonSpaces r1) with
    | some (d1, d2, _) => some (decToRat d1 d2)
    | none => none

/-- re.search of a labeled pattern: first position admitting a match. -/
def findLabeledAux (label : List Char) : List Char → Option ℚ
  | [] => none
  | c :: cs =>
    match labeledAttempt label (c :: cs) with
    | some v => some v
    | none => findLabeledAux label cs

/-- First capture of the labeled regex for the given lowercase label. -/
def findLabeled (label : String) (s : String) : Option ℚ :=
  findLabeledAux label.toList s.toList

/-! ## Configuration model

load_config assembles the parsed JSON config files; the files are
external to the core (and absent from the repository, in which case
every lookup falls back to the defaults written in the code).  A range
entry models a fully specified min and max object; the thresholds are
optional and default inside route exactly as in the code.
-/

/-- A declared numeric range: the min and max fields of a ranges entry. -/
structure Rng where
  rmin : ℚ
  rmax : ℚ
deriving DecidableEq, Repr

/-- One entry of the entity catalog config, with the lookup defaults the
code applies (name defaults to the empty string, type to absent). -/
structure EntityCfg where
  name : String := ""
  etype : Option String := none
  synonyms : List String := []
deriving DecidableEq, Repr

/-- The parsed configuration surface consumed by the router, the parser
and the validator. -/
structure Config where
  entities : List EntityCfg := []
  ranges : List (String × Rng) := []
  implantH : Option Rng := none
  implantL : Option Rng := none
  labels : List String := []
  thIntent : Option ℚ := none
  thEntity : Option ℚ := none
  thValue : Option ℚ := none
  thCutoff : Option ℚ := none

/-- ranges.get(name) over the scalar range entries. -/
def Config.rangeFor (cfg : Config) (name : String) : Option Rng :=
  (cfg.ranges.find? (fun p => p.1 == name)).map (fun p => p.2)

/-! ## NumericParser (backup_20251023_185126/app/scene/values.py) -/

/-- A parsed value: a scalar float or the implant dimension mapping
with the keys height_y_mm and length_z_mm, either possibly absent. -/
inductive PVal where
  | scalar (v : ℚ)
  | dims (h : Option ℚ) (l : Option ℚ)
deriving DecidableEq, Repr

/-- NumericParser.parse_brightness_contrast: percentage pattern first
(0.9 in range, 0.5 out of range), then the bounded bare number (0.7 in
range, nothing otherwise); the target range comes from the brightness or
contrast entry when the lowercased text mentions one, with the default
0 to 100 object of the code. -/
def parse_brightness_contrast (cfg : Config) (text : String) : Option (ℚ × ℚ) :=
  let tl := lowerStr text
  let targetRange :=
    if strHasSub tl "brightness" then (cfg.rangeFor "brightness").getD ⟨0, 100⟩
    else if strHasSub tl "contrast" then (cfg.rangeFor "contrast").getD ⟨0, 100⟩
    else ⟨0, 100⟩
  match findPct text with
  | some value =>
    if targetRange.rmin ≤ value ∧ value ≤ targetRange.rmax then some (value, 0.9)
    else some (value, 0.5)
  | none =>
    match findBoundedNum text with
    | some value =>
      if targetRange.rmin ≤ value ∧ value ≤ targetRange.rmax then some (value, 0.7)
      else none
    | none => none

/-- NumericParser.parse_implant_size: the two-number dimension pattern,
then the labeled height and length patterns, then a single bare number
placed by range membership; height range defaults to 3.0 to 4.8 and
length range to 6.0 to 17.0 when absent from config. -/
def parse_implant_size (cfg : Config) (text : String) : Option (PVal × ℚ) :=
  let hr := cfg.implantH.getD ⟨3.0, 4.8⟩
  let lr := cfg.implantL.getD ⟨6.0, 17.0⟩
  match findDim text with
  | some (v1, v2) =>
    if hr.rmin ≤ v1 ∧ v1 ≤ hr.rmax ∧ lr.rmin ≤ v2 ∧ v2 ≤ lr.rmax then
      some (.dims (some v1) (some v2), 0.9)
    else if hr.rmin ≤ v2 ∧ v2 ≤ hr.rmax ∧ lr.rmin ≤ v1 ∧ v1 ≤ lr.rmax then
      some (.dims (some v2) (some v1), 0.9)
    else some (.dims (some v1) (some v2), 0.6)
  | none =>
    match findLabeled "height" text, findLabeled "length" text with
    | some h, some l =>
      if hr.rmin ≤ h ∧ h ≤ hr.rmax ∧ lr.rmin ≤ l ∧ l ≤ lr.rmax then
        some (.dims (some h) (some l), 0.9)
      else some (.dims (some h) (some l), 0.6)
    | _, _ =>
      match findAnyNum text with
      | some v =>
        if hr.rmin ≤ v ∧ v ≤ hr.rmax then some (.dims (some v) none, 0.5)
        else if lr.rmin ≤ v ∧ v ≤ lr.rmax then some (.dims none (some v), 0.5)
        else none
      | none => none

/-- NumericParser.parse_value: dispatch on the target type, defaulting
to auto-detect, which tries implant size first and then brightness or
contrast. -/
def parse_value (cfg : Config) (text : String) (targetType : String := "auto") :
    Option (PVal × ℚ) :=
  if targetType == "brightness" || targetType == "contrast" then
    (parse_brightness_contrast cfg text).map (fun p => (.scalar p.1, p.2))
  else if targetType == "implant_size" then
    parse_implant_size cfg text
  else
    match parse_implant_size cfg text with
    | some r => some r
    | none => (parse_brightness_contrast cfg text).map (fun p => (.scalar p.1, p.2))

/-! ## Canonical term definitions (app/scene/defs.py) -/

/-- The TERM_DEFINITIONS table, in source order. -/
def TERM_DEFINITIONS : List (String × String) := [
  ("handles", "Handles are grabbable UI affordances used to adjust or manipulate scene elements precisely."),
  ("xray_flashlight", "X‑ray flashlight is a spotlight overlay that reveals X‑ray detail where aimed."),
  ("show_nerve", "Nerve overlay visualizes the mandibular canal to avoid nerve injury during planning."),
  ("show_sinus", "Sinus overlay outlines the maxillary sinus boundary for safe implant planning."),
  ("sinuses", "Sinus overlay outlines the maxillary sinus boundary for safe implant planning."),
  ("align_implants", "Align implants realigns selected implants to a planned axis/prosthetic reference."),
  ("contrast", "Contrast controls the intensity difference in the X‑ray visualization (0–100)."),
  ("brightness", "Brightness controls overall luminance of the X‑ray visualization (0–100)."),
  ("implants", "Dental implants are virtual fixtures selectable by height (y) and length (z) for planning.")]

/-- The SYNONYM_TO_TERM table, in source (dict insertion) order. -/
def SYNONYM_TO_TERM : List (String × String) := [
  ("handles", "handles"),
  ("handle", "handles"),
  ("x-ray flashlight", "xray_flashlight"),
  ("x ray flashlight", "xray_flashlight"),
  ("xray flashlight", "xray_flashlight"),
  ("nerve", "show_nerve"),
  ("nerve overlay", "show_nerve"),
  ("sinus", "show_sinus"),
  ("sinuses", "show_sinus"),
  ("sinus overlay", "show_sinus"),
  ("align implants", "align_implants"),
  ("alignment", "align_implants"),
  ("contrast", "contrast"),
  ("brightness", "brightness"),
  ("implants", "implants"),
  ("dental implants", "implants")]

/-- The friendly-name overrides applied before formatting a definition. -/
def FRIENDLY_NAMES : List (String × String) := [
  ("xray_flashlight", "X‑ray flashlight"),
  ("show_nerve", "nerve overlay"),
  ("show_sinus", "sinus overlay"),
  ("align_implants", "align implants")]

/-- Association lookup mirroring Python dict get on small tables. -/
def lookupStr (l : List (String × String)) (k : String) : Option String :=
  (l.find? (fun p => p.1 == k)).map (fun p => p.2)

/-- Stable insertion of a string into a list sorted by descending
length: walks past strictly longer strings only, so ties keep their
original relative order, as in Python sorted which is stable. -/
def insertByLenDesc (x : String) : List String → List String
  | [] => [x]
  | y :: ys => if x.length < y.length then y :: insertByLenDesc x ys else x :: y :: ys

/-- Stable sort by descending length: Python sorted(keys, key=len, reverse=True). -/
def sortByLenDesc : List String → List String
  | [] => []
  | x :: xs => insertByLenDesc x (sortByLenDesc xs)

/-- The trigger phrases gating resolve_definition. -/
def DEF_TRIGGERS : List String :=
  ["what is", "what are", "explain", "definition of", "tell me about"]

/-- The synonym loop of resolve_definition: first synonym contained in
the query whose term has a definition wins; the answer is the friendly
name (or the synonym) followed by a colon and the definition. -/
def resolveDefLoop (q : List Char) : List String → Option String
  | [] => none
  | syn :: rest =>
    if listHasSub syn.toList q then
      match lookupStr SYNONYM_TO_TERM syn with
      | some term =>
        match lookupStr TERM_DEFINITIONS term with
        | some desc => some ((lookupStr FRIENDLY_NAMES term).getD syn ++ ": " ++ desc)
        | none => resolveDefLoop q rest
      | none => resolveDefLoop q rest
    else resolveDefLoop q rest

/-- resolve_definition: strip and lowercase the question, require a
definition-intent trigger phrase, then scan synonyms longest first. -/
def resolve_definition (question : String) : Option String :=
  let q := lowerChars (stripChars question.toList)
  if DEF_TRIGGERS.any (fun t => listHasSub t.toList q) then
    resolveDefLoop q (sortByLenDesc (SYNONYM_TO_TERM.map (fun p => p.1)))
  else none

/-! ## DecisionRouter (app/scene/router.py)

The data model of routing decisions.  Messages built from f-string
templates are modelled as structured constructors carrying the template
parameters; a constructor stands for exactly one message template of the
source.  Confidence breakdowns are the {intent, entity, value} triple;
a clarification whose source dict has no confidence key carries none.
-/

/-- Entity metadata as consumed by the router: the fields the code reads
from an entity data dict, each possibly absent. -/
structure EData where
  ename : Option String := none
  etype : Option String := none
  definition : Option String := none
  location : Option String := none
deriving DecidableEq, Repr

/-- The {intent, entity, value} confidence breakdown. -/
structure Conf3 where
  intent : ℚ
  entity : ℚ
  value : ℚ
deriving DecidableEq, Repr

/-- A tool-action argument value: a string literal, a number, or the
implant dimension mapping. -/
inductive Val where
  | vnum (q : ℚ)
  | vstr (s : String)
  | vdims (h : Option ℚ) (l : Option ℚ)
deriving DecidableEq, Repr

/-- Inject a parsed value into a tool-action value. -/
def PVal.toVal : PVal → Val
  | .scalar q => .vnum q
  | .dims h l => .vdims h l

/-- The arguments dict of a control tool action as the router emits it. -/
structure ToolArgs where
  hand : String
  target : String
  operation : String
  value : Option Val
deriving DecidableEq, Repr

/-- Message templates of the router, one constructor per source f-string
or literal, carrying the interpolated data. -/
inductive Msg where
  | detectedValueWhich (v : PVal)
  | chooseOne (opts : List (String × Option Rng))
  | implantsOverlayOrDefinition
  | turnOnImplantsOverlay
  | tellMeAboutImplants
  | needMoreDetail
  | valueWhichControl (v : PVal) (opts : List (String × Option Rng))
  | whichElementToggle (turnOn : Bool) (names : List String)
  | whoseInfo (what : String) (names : List String)
  | controlsOrInfoNudge
  | specifyElementOrValue
  | whichElementToControl
  | specifyTargetExample
  | whatValueFor (target : String) (hint : Option Rng)
  | exampleSetTo (target : String)
  | examplePercent (target : String)
  | whatToKnowAbout
  | specifyElementExample
  | whichSizeForImplants
  | provideHeightLength
  | sizeExample
  | notSureWhatAsking
  | tryInfoExample
  | tryControlExample
  | tryLocationExample
deriving DecidableEq, Repr

/-- Answer payloads of the info branch: a concrete definition string, the
generic definition fallback, a location string, the missing-location
fallback, or the generic info line. -/
inductive Ans where
  | defText (s : String)
  | genericDef (canonicalName : String)
  | locText (s : String)
  | locNotSpecified (entityName : String)
  | infoLine (entityName : String) (defn : Option String)
deriving DecidableEq, Repr

/-- A routing decision: the tagged dict route returns, with its type
discriminator realised as the constructor. -/
inductive Decision where
  | toolAction (tool : String) (args : ToolArgs) (conf : Conf3)
  | answer (ans : Ans) (contextUsed : Bool) (conf : ℚ)
  | clarification (message : Msg) (clars : List Msg) (conf : Option Conf3)
deriving DecidableEq, Repr

/-- The type discriminator string of a decision. -/
def Decision.dtype : Decision → String
  | .toolAction _ _ _ => "tool_action"
  | .answer _ _ _ => "answer"
  | .clarification _ _ _ => "clarification"

/-- The external oracles the router consults: the ML intent classifier,
the two entity resolution paths, the rapidfuzz partial ratio (per
pattern and lowercased text, scaled 0 to 100), and the LLM tie-break
reply after the strip and lowercase post-processing of the code. -/
structure Oracles where
  classify : String → String × ℚ
  semanticEntities : String → List (String × ℚ × EData)
  lexicalEntities : String → List (String × ℚ × EData)
  fuzzScore : String → String → ℚ
  chatLabel : String → String

/-- The control_patterns table of _fuzzy_intent_match, in source order. -/
def controlPatterns : List (String × List String) := [
  ("info_definition", ["what is", "what are", "definition", "tell me about", "information",
    "wat is", "wat are", "definiton", "infomation"]),
  ("info_location", ["where is", "where are", "which side", "what side",
    "were is", "were are", "wich side", "wat side"]),
  ("control_on", ["turn on", "activate", "enable", "switch on", "start", "show",
    "give me", "provide me", "bring up", "turnn on", "tirn on",
    "turnn", "tirn", "activat", "enabl", "swich on"]),
  ("control_off", ["turn off", "deactivate", "disable", "switch off", "stop", "hide",
    "turnn off", "tirn off", "deactivat", "disabl", "swich off"])]

/-- _fuzzy_intent_match (the rapidfuzz branch): for each contained
pattern, score by the partial ratio scaled to 0..1, boost info intents
by 0.3 capped at 1, keep the strictly best; finally boost a best score
above 0.8 by 0.2 capped at 1. -/
def fuzzyIntentMatch (o : Oracles) (text : String) : String × ℚ :=
  let tl := lowerStr text
  let best := controlPatterns.foldl (fun best p =>
    p.2.foldl (fun best pat =>
      if strHasSub tl pat then
        let score0 := o.fuzzScore pat tl / 100
        let score := if strHasPre p.1 "info_" then rmin (score0 + 0.3) 1 else score0
        if score > best.2 then (p.1, score) else best
      else best) best) (("none", 0) : String × ℚ)
  if best.2 > 0.8 then (best.1, rmin (best.2 + 0.2) 1) else best

/-- _llm_classify: the LLM reply (post-processed) must be one of the
configured labels, scored 0.7; anything else counts as no opinion. -/
def llmClassify (cfg : Config) (o : Oracles) (text : String) : String × ℚ :=
  let resp := o.chatLabel text
  if cfg.labels.contains resp then (resp, 0.7) else ("none", 0)

/-- Order-preserving first-occurrence deduplication with an explicit
seen accumulator, mirroring the seen-set idiom of the code. -/
def dedupAux (seen : List String) : List String → List String
  | [] => []
  | x :: xs => if seen.contains x then dedupAux seen xs else x :: dedupAux (x :: seen) xs

/-- _detect_value_target: lexically match value-typed entities (name or
one of its lowercased synonyms contained in the lowercased text), then
deduplicate; a single match is returned, anything else is ambiguous. -/
def detectValueTarget (cfg : Config) (text : String) : Option String × List String :=
  let tl := lowerStr text
  let candidates := cfg.entities.filterMap (fun e =>
    if e.etype == some "value" then some (e.name, e.synonyms.map lowerStr) else none)
  let ms := candidates.foldl (fun acc c =>
    if c.1 ≠ "" ∧ strHasSub tl c.1 then acc ++ [c.1]
    else if c.2.any (fun s => s ≠ "" ∧ strHasSub tl s) then acc ++ [c.1]
    else acc) []
  match dedupAux [] ms with
  | [m] => (some m, [m])
  | dd => (none, dd)

/-- The seen-set merge of semantic and lexical entity candidates in
route, deduplicating by candidate name with semantic results first. -/
def mergeCandidatesAux (seen : List String) :
    List (String × ℚ × EData) → List (String × ℚ × EData)
  | [] => []
  | c :: cs =>
    if seen.contains c.1 then mergeCandidatesAux seen cs
    else c :: mergeCandidatesAux (c.1 :: seen) cs

/-- Combined entity results of route. -/
def mergeCandidates (sem lex : List (String × ℚ × EData)) : List (String × ℚ × EData) :=
  mergeCandidatesAux [] (sem ++ lex)

/-- The entity_score key of route: confidence plus a 0.1 semantic boost
plus 0.01 per character of the candidate name. -/
def entityScore (semNames : List String) (c : String × ℚ × EData) : ℚ :=
  c.2.1 + (if semNames.contains c.1 then 0.1 else 0) + (c.1.length : ℚ) * 0.01

/-- Python max with a key function: the first element attaining the
maximum (later elements replace only on a strictly greater key). -/
def maxByFirst (f : String × ℚ × EData → ℚ) :
    List (String × ℚ × EData) → Option (String × ℚ × EData)
  | [] => none
  | x :: xs => some (xs.foldl (fun b y => if f y > f b then y else b) x)

/-- Combined entity results for a text under the given oracles. -/
def entityResultsOf (o : Oracles) (text : String) : List (String × ℚ × EData) :=
  mergeCandidates (o.semanticEntities text) (o.lexicalEntities text)

/-- The best entity route selects, if any. -/
def bestEntityOf (o : Oracles) (text : String) : Option (String × ℚ × EData) :=
  maxByFirst (entityScore ((o.semanticEntities text).map (fun c => c.1)))
    (entityResultsOf o text)

/-- The entity confidence route derives: the raw confidence of the best
entity, 0 when there is none. -/
def entityConfidenceOf (o : Oracles) (text : String) : ℚ :=
  match bestEntityOf o text with
  | some c => c.2.1
  | none => 0

/-- The intent label and confidence after the classifier, the fuzzy
fallback, the LLM tie-break, and the hard-coded implant override, as
computed by route before entity resolution. -/
def resolveIntent (cfg : Config) (o : Oracles) (text : String) : String × ℚ :=
  let intentThreshold := cfg.thIntent.getD 0.6
  let p0 := o.classify text
  let p1 := if p0.2 < intentThreshold then
      (let f := fuzzyIntentMatch o text; if f.2 > p0.2 then f else p0)
    else p0
  let p2 := if p1.2 < intentThreshold then
      (let l := llmClassify cfg o text; if l.2 > p1.2 then l else p1)
    else p1
  let tl := lowerStr text
  if strHasSub tl "implant" ∧ (strHasSub tl "give me" ∨ strHasSub tl "provide me") then
    (if text.toList.any Char.isDigit then ("control_value", 0.9) else ("size_request", 0.8))
  else p2

/-- The canonical-name accumulation over the top five entity candidates
used by the clarification builder. -/
def canonicalNames (cands : List (String × ℚ × EData)) : List String :=
  (cands.take 5).foldl (fun acc c =>
    let cn := c.2.2.ename.getD c.1
    if cn ∈ acc then acc else acc ++ [cn]) []

/-- The switch-name extension loop of the clarification builder, with
its break once five names accumulate (checked after each element). -/
def extendWithSwitches : List String → List EntityCfg → List String
  | names, [] => names
  | names, e :: es =>
    let names2 := if e.name ≠ "" ∧ e.name ∉ names then names ++ [e.name] else names
    if 5 ≤ names2.length then names2 else extendWithSwitches names2 es

/-- The final fallback step of _generate_clarification: when nothing
specific was generated, provide the minimal fallback clarification. -/
def ensureNonempty (l : List Msg) : List Msg :=
  if l = [] then [Msg.specifyElementOrValue] else l

/-- _generate_clarification: accumulate the targeted suggestions in
source order (unplaced value, ambiguous switch intent, ambiguous info
intent), then the low-confidence nudge, then the minimal fallback; the
result always carries the confidence triple. -/
def genClarification (cfg : Config) (intentLabel : String) (intentConf : ℚ)
    (entity : Option (String × ℚ × EData)) (entityConf : ℚ)
    (valueResult : Option (PVal × ℚ)) (valueConf : ℚ)
    (entityCandidates : List (String × ℚ × EData)) : Decision :=
  let valueTargets := cfg.entities.filter (fun e => e.etype == some "value")
  let switchTargets := cfg.entities.filter (fun e => e.etype == some "switch")
  let c1 : List Msg :=
    match valueResult with
    | some vr =>
      if entity = none ∨ entityConf < 0.5 then
        let options := valueTargets.map (fun e => (e.name, cfg.rangeFor e.name))
        if options = [] then [] else [Msg.valueWhichControl vr.1 (options.take 4)]
      else []
    | none => []
  let c2 : List Msg :=
    if (intentLabel = "control_on" ∨ intentLabel = "control_off") ∧
        (entity = none ∨ entityConf < 0.5) then
      let names := extendWithSwitches (canonicalNames entityCandidates) switchTargets
      if names = [] then [] else [Msg.whichElementToggle (intentLabel = "control_on") (names.take 5)]
    else []
  let c3 : List Msg :=
    if (intentLabel = "info_definition" ∨ intentLabel = "info_location") ∧
        (entity = none ∨ entityConf < 0.5) then
      let names := canonicalNames entityCandidates
      if names = [] then []
      else [Msg.whoseInfo (if intentLabel = "info_definition" then "definition" else "location")
        (names.take 5)]
    else []
  let acc := c1 ++ c2 ++ c3
  let acc := if intentConf < 0.6 ∧ acc = [] then acc ++ [Msg.controlsOrInfoNudge] else acc
  .clarification .needMoreDetail (ensureNonempty acc) (some ⟨intentConf, entityConf, valueConf⟩)

/-- _generate_control_action: no entity yields a bare clarification (no
confidence key); control_value without a value yields the targeted
range-bounded value request; otherwise a tool action with the hand
override for the skull_model entity type. -/
def genControlAction (cfg : Config) (intentLabel : String)
    (entity : Option (String × ℚ × EData)) (valueResult : Option (PVal × ℚ)) : Decision :=
  match entity with
  | none => .clarification .whichElementToControl [.specifyTargetExample] none
  | some c =>
    let entityConf := c.2.1
    let entityType := c.2.2.etype.getD "unknown"
    let canonicalTarget := c.2.2.ename.getD c.1
    if intentLabel = "control_value" ∧ valueResult = none then
      .clarification (.whatValueFor canonicalTarget (cfg.rangeFor canonicalTarget))
        [.exampleSetTo canonicalTarget, .examplePercent canonicalTarget]
        (some ⟨0.8, entityConf, 0⟩)
    else
      let ov : String × Option Val :=
        if intentLabel = "control_on" then ("set", some (.vstr "on"))
        else if intentLabel = "control_off" then ("set", some (.vstr "off"))
        else
          match valueResult with
          | some vr => if intentLabel = "control_value" then ("set", some vr.1.toVal) else ("toggle", none)
          | none => ("toggle", none)
      let hand := if entityType = "skull_model" then "left" else "right"
      .toolAction "control" ⟨hand, canonicalTarget, ov.1, ov.2⟩
        ⟨0.8, entityConf, match valueResult with | some vr => vr.2 | none => 0⟩

/-- _generate_info_response: no entity yields a bare clarification (no
confidence key); definitions prefer resolve_definition, then the entity
definition, then the generic line; locations fall back to the
not-specified line. -/
def genInfoResponse (intentLabel : String) (entity : Option (String × ℚ × EData))
    (text : String) : Decision :=
  match entity with
  | none => .clarification .whatToKnowAbout [.specifyElementExample] none
  | some c =>
    let entityConf := c.2.1
    let canonicalName := c.2.2.ename.getD c.1
    if intentLabel = "info_definition" then
      match resolve_definition text with
      | some d => .answer (.defText d) false entityConf
      | none =>
        match c.2.2.definition with
        | some d => .answer (.defText d) false entityConf
        | none => .answer (.genericDef canonicalName) false entityConf
    else if intentLabel = "info_location" then
      match c.2.2.location with
      | some l => .answer (.locText l) false entityConf
      | none => .answer (.locNotSpecified c.1) false entityConf
    else .answer (.infoLine c.1 c.2.2.definition) false entityConf

/-- _generate_size_request_response. -/
def genSizeRequest : Decision :=
  .clarification .whichSizeForImplants [.provideHeightLength, .sizeExample]
    (some ⟨0.8, 0, 0⟩)

/-- _generate_fallback_response: the generic clarification, which
carries no confidence key. -/
def genFallback : Decision :=
  .clarification .notSureWhatAsking [.tryInfoExample, .tryControlExample, .tryLocationExample] none

/-- DecisionRouter.route: the deterministic numeric fast-path, the
intent pipeline with the show-me-implants disambiguation, entity
resolution, value parsing for value intents, threshold arbitration, and
branch synthesis. -/
def route (cfg : Config) (o : Oracles) (text : String) : Decision :=
  let routerCutoff := cfg.thCutoff.getD 0.3
  match parse_value cfg text "auto" with
  | some fv =>
    match detectValueTarget cfg text with
    | (some targetName, _) =>
      .toolAction "control" ⟨"right", targetName, "set", some fv.1.toVal⟩ ⟨0.85, 0.75, fv.2⟩
    | (none, _) =>
      let likely := ["contrast", "brightness"].map (fun n => (n, cfg.rangeFor n))
      .clarification (.detectedValueWhich fv.1) [.chooseOne likely] (some ⟨0.7, 0.2, fv.2⟩)
  | none =>
    let ip := resolveIntent cfg o text
    let tl := lowerStr text
    if strHasSub tl "show me" ∧ strHasSub tl "implant" ∧ ip.2 < 0.7 then
      .clarification .implantsOverlayOrDefinition [.turnOnImplantsOverlay, .tellMeAboutImplants]
        (some ⟨ip.2, 0.4, 0⟩)
    else
      let entityResults := entityResultsOf o text
      let bestEntity := bestEntityOf o text
      let entityConf := entityConfidenceOf o text
      let valueResult :=
        if ip.1 = "control_value" ∨ ip.1 = "size_request" then parse_value cfg text "auto"
        else none
      let valueConf := match valueResult with | some p => p.2 | none => 0
      let overall := if 0 < entityConf then rmin ip.2 entityConf else ip.2
      if overall < routerCutoff then
        genClarification cfg ip.1 ip.2 bestEntity entityConf valueResult valueConf
          (entityResults.take 5)
      else if strHasPre ip.1 "control_" then
        genControlAction cfg ip.1 bestEntity valueResult
      else if strHasPre ip.1 "info_" then
        genInfoResponse ip.1 bestEntity text
      else if ip.1 = "size_request" then genSizeRequest
      else genFallback

/-- DecisionRouter.route as actually executed, the logging calls
included.  The branch structure and every branch result are exactly
those of route above; the difference is the unconditional logging call
of the info branch, which subscripts the answer, context_used and
confidence keys of the info response before returning it.  When the
info synthesis produced the no-entity clarification, that dict has no
answer key and the subscript raises KeyError, modelled as the error
outcome.  No other logging call can raise: the arbitration
clarification always carries its clarifications and confidence keys,
the size-request and fallback responses carry their clarifications key
(the fallback logging passes an empty dict for confidence), the
tool-action logging is guarded by a type check, and the fast-path and
show-me returns are not logged at all. -/
def routeRun (cfg : Config) (o : Oracles) (text : String) : Except Unit Decision :=
  let routerCutoff := cfg.thCutoff.getD 0.3
  match parse_value cfg text "auto" with
  | some fv =>
    match detectValueTarget cfg text with
    | (some targetName, _) =>
      .ok (.toolAction "control" ⟨"right", targetName, "set", some fv.1.toVal⟩
        ⟨0.85, 0.75, fv.2⟩)
    | (none, _) =>
      let likely := ["contrast", "brightness"].map (fun n => (n, cfg.rangeFor n))
      .ok (.clarification (.detectedValueWhich fv.1) [.chooseOne likely]
        (some ⟨0.7, 0.2, fv.2⟩))
  | none =>
    let ip := resolveIntent cfg o text
    let tl := lowerStr text
    if strHasSub tl "show me" ∧ strHasSub tl "implant" ∧ ip.2 < 0.7 then
      .ok (.clarification .implantsOverlayOrDefinition
        [.turnOnImplantsOverlay, .tellMeAboutImplants] (some ⟨ip.2, 0.4, 0⟩))
    else
      let entityResults := entityResultsOf o text
      let bestEntity := bestEntityOf o text
      let entityConf := entityConfidenceOf o text
      let valueResult :=
        if ip.1 = "control_value" ∨ ip.1 = "size_request" then parse_value cfg text "auto"
        else none
      let valueConf := match valueResult with | some p => p.2 | none => 0
      let overall := if 0 < entityConf then rmin ip.2 entityConf else ip.2
      if overall < routerCutoff then
        .ok (genClarification cfg ip.1 ip.2 bestEntity entityConf valueResult valueConf
          (entityResults.take 5))
      else if strHasPre ip.1 "control_" then
        .ok (genControlAction cfg ip.1 bestEntity valueResult)
      else if strHasPre ip.1 "info_" then
        match genInfoResponse ip.1 bestEntity text with
        | .answer a cu c => .ok (.answer a cu c)
        | _ => .error ()
      else if ip.1 = "size_request" then .ok genSizeRequest
      else .ok genFallback

/-! ## ToolValidator (app/tools/control.py)

Error strings are modelled as structured constructors carrying the
interpolated bounds; valueOutOfRange a b stands for the string
"value out of range (a-b)" and similarly for the dimension errors.
-/

/-- The structured validation errors of _validate, one constructor per
error string of the source. -/
inductive VErr where
  | invalidHand
  | targetRequired
  | badOperation
  | leftHandForbidden
  | valueMustBeOnOff
  | valueMustBeNumber
  | valueOutOfRange (rmin rmax : ℚ)
  | implantsValueMustBe
  | heightOutOfRange (rmin rmax : ℚ)
  | lengthOutOfRange (rmin rmax : ℚ)
  | invalidImplantsValue
  | unknownTarget
deriving DecidableEq, Repr

/-- The argument dict handed to the validator, with the lookup defaults
of the code (hand defaults to none-the-string; target and operation may
be absent). -/
structure VArgs where
  hand : String := "none"
  target : Option String := none
  operation : Option String := none
  value : Option Val := none
deriving DecidableEq, Repr

/-- The normalized argument dict a successful validation returns. -/
structure Normalized where
  hand : String
  target : String
  operation : String
  value : Val
deriving DecidableEq, Repr

/-- Decidable equality of validation outcomes. -/
instance : DecidableEq (Except VErr Normalized) := fun x y =>
  match x, y with
  | .error a, .error b =>
    if h : a = b then .isTrue (by rw [h]) else .isFalse (fun hc => h (by injection hc))
  | .ok a, .ok b =>
    if h : a = b then .isTrue (by rw [h]) else .isFalse (fun hc => h (by injection hc))
  | .error _, .ok _ => .isFalse (fun hc => Except.noConfusion hc)
  | .ok _, .error _ => .isFalse (fun hc => Except.noConfusion hc)

/-- _get_entities: switch targets are the entities of type switch. -/
def switchTargetsOf (cfg : Config) : List String :=
  cfg.entities.filterMap (fun e => if e.etype == some "switch" then some e.name else none)

/-- _get_entities: value targets are the entities of type control. -/
def valueTargetsOf (cfg : Config) : List String :=
  cfg.entities.filterMap (fun e => if e.etype == some "control" then some e.name else none)

/-- _validate: hand, target and operation checks, the left-hand
constraint on switch and value targets other than skull_model, then the
per-kind value checks, including the implants branch that accepts
on/off or an independently range-checked dimension mapping. -/
def validateArgs (cfg : Config) (args : VArgs) : Except VErr Normalized :=
  let sw := switchTargetsOf cfg
  let vt := valueTargetsOf cfg
  if ¬ (args.hand = "left" ∨ args.hand = "right" ∨ args.hand = "none") then
    .error .invalidHand
  else
    match args.target with
    | none => .error .targetRequired
    | some target =>
      match args.operation with
      | none => .error .badOperation
      | some op =>
        if ¬ (op = "set" ∨ op = "toggle") then .error .badOperation
        else if args.hand = "left" ∧ (target ∈ sw ∨ target ∈ vt) ∧ target ≠ "skull_model" then
          .error .leftHandForbidden
        else if target ∈ sw then
          if op = "set" then
            match args.value with
            | some (.vstr s) =>
              if s = "on" ∨ s = "off" then .ok ⟨args.hand, target, op, .vstr s⟩
              else .error .valueMustBeOnOff
            | _ => .error .valueMustBeOnOff
          else .ok ⟨args.hand, target, op, .vstr "toggle"⟩
        else if target ∈ vt then
          match args.value with
          | some (.vnum q) =>
            let r := (cfg.rangeFor target).getD ⟨0, 100⟩
            if r.rmin ≤ q ∧ q ≤ r.rmax then .ok ⟨args.hand, target, op, .vnum q⟩
            else .error (.valueOutOfRange r.rmin r.rmax)
          | _ => .error .valueMustBeNumber
        else if target = "implants" then
          match args.value with
          | some (.vstr s) =>
            if s = "on" ∨ s = "off" then .ok ⟨args.hand, target, op, .vstr s⟩
            else .error .implantsValueMustBe
          | some (.vdims h l) =>
            let hr := cfg.implantH.getD ⟨3.0, 4.8⟩
            let lr := cfg.implantL.getD ⟨6.0, 17.0⟩
            if h.any (fun hv => ¬ (hr.rmin ≤ hv ∧ hv ≤ hr.rmax)) then
              .error (.heightOutOfRange hr.rmin hr.rmax)
            else if l.any (fun lv => ¬ (lr.rmin ≤ lv ∧ lv ≤ lr.rmax)) then
              .error (.lengthOutOfRange lr.rmin lr.rmax)
            else .ok ⟨args.hand, target, op, .vdims h l⟩
          | _ => .error .invalidImplantsValue
        else .error .unknownTarget

/-- The caller contract of the spec control flow: the router proposes,
then the caller validates a proposed tool action; non-actions are never
validated.  Returns the validation outcome when one happens. -/
def pipeline (cfg : Config) (o : Oracles) (text : String) :
    Option (Except VErr Normalized) :=
  match route cfg o text with
  | .toolAction _ args _ =>
    some (validateArgs cfg ⟨args.hand, some args.target, some args.operation, args.value⟩)
  | _ => none

/-! ## Retriever.build_context (app/rag/retriever.py)

The loop appends each not-yet-seen chunk with non-empty text and stops
once the joined text reaches the character budget.  The loop is
modelled keeping the (chunk id, text) pair of every appended part, so
the deduplication can be stated; the returned string joins the texts.
-/

/-- The double-newline join of the context parts. -/
def joinParts : List String → String
  | [] => ""
  | [p] => p
  | p :: q :: ps => p ++ "\n\n" ++ joinParts (q :: ps)

/-- The build_context accumulation loop over the retrieved (id, score,
metadata) triples, with the seen set and the appended parts. -/
def buildContextLoop {μ : Type} (lookup : String → Option String) (maxChars : ℕ) :
    List (String × ℚ × μ) → List (String × String) → List String → List (String × String)
  | [], parts, _ => parts
  | r :: rest, parts, seen =>
    if seen.contains r.1 then buildContextLoop lookup maxChars rest parts seen
    else
      match lookup r.1 with
      | none => buildContextLoop lookup maxChars rest parts (r.1 :: seen)
      | some t =>
        if t = "" then buildContextLoop lookup maxChars rest parts (r.1 :: seen)
        else
          let parts2 := parts ++ [(r.1, t)]
          if maxChars ≤ (joinParts (parts2.map (fun p => p.2))).length then parts2
          else buildContextLoop lookup maxChars rest parts2 (r.1 :: seen)

/-- The (id, text) pairs build_context appends. -/
def buildContextPairs {μ : Type} (lookup : String → Option String) (maxChars : ℕ)
    (retrieved : List (String × ℚ × μ)) : List (String × String) :=
  buildContextLoop lookup maxChars retrieved [] []

/-- Retriever.build_context: the joined context string. -/
def build_context {μ : Type} (lookup : String → Option String) (maxChars : ℕ)
    (retrieved : List (String × ℚ × μ)) : String :=
  joinParts ((buildContextPairs lookup maxChars retrieved).map (fun p => p.2))

/-! ## Concrete instances used by witnesses and counterexamples -/

/-- Oracles reporting no signal at all: the classifier returns the none
label at confidence 0, both entity paths return nothing, fuzzy scores
are 0 and the LLM reply is empty. -/
def noSignalOracles : Oracles :=
  ⟨fun _ => ("none", 0), fun _ => [], fun _ => [], fun _ _ => 0, fun _ => ""⟩

/-- A configuration declaring brightness both as a router value target
(type value, so the lexical fast-path detects it) and as a validator
value target (type control, the type string _get_entities keys value
targets on), with the declared range 0 to 100. -/
def cfgBrightness : Config :=
  { entities := [⟨"brightness", some "value", []⟩, ⟨"brightness", some "control", []⟩],
    ranges := [("brightness", ⟨0, 100⟩)] }

/-- Oracles that classify confidently as control_value and resolve the
brightness entity at confidence 0.8. -/
def oraclesControlValue : Oracles :=
  ⟨fun _ => ("control_value", 0.9),
   fun _ => [("brightness", 0.8, ⟨some "brightness", some "value", none, none⟩)],
   fun _ => [], fun _ _ => 0, fun _ => ""⟩

/-- Oracles that classify confidently as control_on but resolve no
entity at all. -/
def oraclesControlOnNoEntity : Oracles :=
  ⟨fun _ => ("control_on", 0.9), fun _ => [], fun _ => [], fun _ _ => 0, fun _ => ""⟩

/-- A configuration declaring a single switch entity named handles. -/
def cfgSwitchHandles : Config := { entities := [⟨"handles", some "switch", []⟩] }

/-- A one-chunk text lookup used by the context-budget witnesses. -/
def lookupAB : String → Option String := fun c => if c == "c1" then some "ab" else none

/-- A one-chunk retrieval result used by the context-budget witnesses. -/
def retrievedOne : List (String × ℚ × Unit) := [("c1", 0, ())]

/-- The empty configuration: every config file absent, so every lookup
falls back to the defaults written in the code. -/
def cfgEmpty : Config := {}

/-- Oracles matching the runtime state of the repository as shipped:
with the config files absent the zero-shot classifier is disabled and
returns the none label at confidence 0, and both entity resolution
paths return nothing.  The fuzzy score is the rapidfuzz partial ratio,
which is 100 for any pattern contained in the text, and
fuzzyIntentMatch consults the score only for contained patterns, so the
constant 100 is faithful on every consulted pair.  The chat oracle is
never consulted when the fuzzy pass already clears the intent
threshold. -/
def oraclesNoConfig : Oracles :=
  ⟨fun _ => ("none", 0), fun _ => [], fun _ => [], fun _ _ => 100, fun _ => ""⟩

/-! ## Derived properties of decisions -/

/-- Among decisions the router actually returns to its caller, the
confidence breakdown is absent only on two sites of the source: the
no-entity control clarification and the generic fallback.  The third
dict built without the key, the no-entity info clarification, never
reaches the caller (the info branch raises on its logging subscript, as
routeRun records), so it is not listed here. -/
def Decision.confAbsentOnlyWhenReturned : Decision → Prop
  | .clarification m _ none =>
      m = .whichElementToControl ∨ m = .notSureWhatAsking
  | _ => True

/-- In control-action synthesis the confidence triple is absent only on
the no-entity clarification. -/
theorem genControlAction_confReturned (cfg : Config) (il : String)
    (e : Option (String × ℚ × EData)) (vr : Option (PVal × ℚ)) :
    (genControlAction cfg il e vr).confAbsentOnlyWhenReturned := by
  unfold genControlAction
  repeat' split
  all_goals simp [Decision.confAbsentOnlyWhenReturned]

/-- Dropping the last part never lengthens the joined context text. -/
theorem joinParts_dropLast_le (l : List String) :
    (joinParts l.dropLast).length ≤ (joinParts l).length := by
  induction l with
  | nil => simp [joinParts]
  | cons p t ih =>
    cases t with
    | nil => simp [joinParts]
    | cons q ps =>
      cases ps with
      | nil =>
        simp only [List.dropLast_cons₂, List.dropLast_single, joinParts, String.length_append]
        exact le_trans (Nat.le_add_right _ _) (Nat.le_add_right _ _)
      | cons r rs =>
        rw [List.dropLast_cons₂, List.dropLast_cons₂]
        rw [List.dropLast_cons₂] at ih
        simp only [joinParts, String.length_append] at ih ⊢
        omega

/-- The invariant of the build_context loop: entering with pairwise
distinct appended ids all recorded in the seen set and a joined length
still under budget, the loop keeps the appended ids distinct, and every
part except possibly the last fits under the budget. -/
theorem buildContextLoop_spec {μ : Type} (lookup : String → Option String) (maxChars : ℕ)
    (rest : List (String × ℚ × μ)) :
    ∀ (parts : List (String × String)) (seen : List String),
      (parts.map (fun p => p.1)).Nodup →
      (∀ p ∈ parts, p.1 ∈ seen) →
      (joinParts (parts.map (fun p => p.2))).length < maxChars →
      ((buildContextLoop lookup maxChars rest parts seen).map (fun p => p.1)).Nodup ∧
      (joinParts (((buildContextLoop lookup maxChars rest parts seen).map
        (fun p => p.2)).dropLast)).length < maxChars := by
  induction rest with
  | nil =>
    intro parts seen h1 _ h3
    simp only [buildContextLoop]
    exact ⟨h1, lt_of_le_of_lt (joinParts_dropLast_le _) h3⟩
  | cons r rs ih =>
    intro parts seen h1 h2 h3
    simp only [buildContextLoop]
    split
    · exact ih parts seen h1 h2 h3
    · rename_i hseen
      have hnotin : r.1 ∉ seen := by
        intro hmem
        exact hseen (List.contains_iff_exists_mem_beq.mpr ⟨r.1, hmem, by simp⟩)
      have hmemup : ∀ p ∈ parts, p.1 ∈ r.1 :: seen :=
        fun p hp => List.mem_cons_of_mem _ (h2 p hp)
      split
      · exact ih parts (r.1 :: seen) h1 hmemup h3
      · rename_i t _
        split
        · exact ih parts (r.1 :: seen) h1 hmemup h3
        · have hfst : r.1 ∉ parts.map (fun p => p.1) := by
            intro hmem
            rcases List.mem_map.mp hmem with ⟨p, hp, hpe⟩
            exact hnotin (hpe ▸ h2 p hp)
          have hnodup2 : ((parts ++ [(r.1, t)]).map (fun p => p.1)).Nodup := by
            rw [List.map_append, List.nodup_append]
            refine ⟨h1, List.nodup_singleton _, ?_⟩
            intro a ha hb
            simp only [List.map_cons, List.map_nil, List.mem_singleton] at hb
            exact hfst (hb ▸ ha)
          have hmem3 : ∀ p ∈ parts ++ [(r.1, t)], p.1 ∈ r.1 :: seen := by
            intro p hp
            rcases List.mem_append.mp hp with hp | hp
            · exact List.mem_cons_of_mem _ (h2 p hp)
            · simp only [List.mem_singleton] at hp
              subst hp
              exact List.mem_cons_self _ _
          split
          · refine ⟨hnodup2, ?_⟩
            have hdl : ((parts ++ [(r.1, t)]).map (fun p => p.2)).dropLast =
                parts.map (fun p => p.2) := by
              rw [List.map_append]
              simp
            rw [hdl]
            exact h3
          · rename_i hlt
            exact ih (parts ++ [(r.1, t)]) (r.1 :: seen) hnodup2 hmem3 (Nat.lt_of_not_le hlt)

end VRCore

namespace VRCore

/-! ## Claim theorems -/

/-- C1: for every input on which route reaches the arbitration step (the
numeric fast-path did not fire and the show-me-implants override did not
return), the combined confidence is min(intent, entity) when an entity
candidate exists (entity confidence positive) and the intent confidence
alone otherwise; whenever that combined confidence is below the
configured router cutoff, route returns a decision of type
clarification, not a tool action or an answer. -/
theorem C1_arbitration_low_confidence_clarifies (cfg : Config) (o : Oracles) (text : String)
    (hfast : parse_value cfg text "auto" = none)
    (hshow : ¬ (strHasSub (lowerStr text) "show me" = true ∧
      strHasSub (lowerStr text) "implant" = true ∧ (resolveIntent cfg o text).2 < 0.7))
    (hlow : (if 0 < entityConfidenceOf o text then
        rmin (resolveIntent cfg o text).2 (entityConfidenceOf o text)
      else (resolveIntent cfg o text).2) < cfg.thCutoff.getD 0.3) :
    (route cfg o text).dtype = "clarification" := by
  simp only [route, hfast]
  rw [if_neg hshow, if_pos hlow]
  rfl

/-- C1 witness: the no-signal utterance discharges every hypothesis and
route indeed answers with a clarification. -/
theorem C1_arbitration_low_confidence_clarifies_w :
    (route cfgEmpty noSignalOracles "asdkjh").dtype = "clarification" :=
  C1_arbitration_low_confidence_clarifies cfgEmpty noSignalOracles "asdkjh"
    (by norm_num +decide [route, resolveIntent, fuzzyIntentMatch, llmClassify, controlPatterns, genClarification,
    ensureNonempty, canonicalNames, extendWithSwitches, genControlAction, genInfoResponse,
    genSizeRequest, genFallback, resolve_definition, resolveDefLoop, sortByLenDesc,
    insertByLenDesc, lookupStr, SYNONYM_TO_TERM, TERM_DEFINITIONS, FRIENDLY_NAMES,
    DEF_TRIGGERS, detectValueTarget, dedupAux, entityResultsOf, bestEntityOf,
    entityConfidenceOf, mergeCandidates, mergeCandidatesAux, maxByFirst, entityScore,
    parse_value, parse_implant_size, parse_brightness_contrast, findPct, findPctAux,
    findBoundedNum, findBoundedNumAux, findAnyNum, findAnyNumAux, findDim, findDimAux,
    dimAttempt, findLabeled, findLabeledAux, labeledAttempt, dropLabelCI, scanNumber,
    takeDigits, digitsToNat, digitVal, decToRat, dropSpaces, dropColonSpaces, headIsWord,
    strHasSub, strHasPre, listHasSub, listHasPre, lowerStr, lowerChars, stripChars, rmin,
    Config.rangeFor, PVal.toVal, switchTargetsOf, valueTargetsOf, validateArgs, pipeline,
    cfgEmpty, cfgBrightness, cfgSwitchHandles, noSignalOracles, oraclesControlValue,
    oraclesControlOnNoEntity])
    (by norm_num +decide [route, resolveIntent, fuzzyIntentMatch, llmClassify, controlPatterns, genClarification,
    ensureNonempty, canonicalNames, extendWithSwitches, genControlAction, genInfoResponse,
    genSizeRequest, genFallback, resolve_definition, resolveDefLoop, sortByLenDesc,
    insertByLenDesc, lookupStr, SYNONYM_TO_TERM, TERM_DEFINITIONS, FRIENDLY_NAMES,
    DEF_TRIGGERS, detectValueTarget, dedupAux, entityResultsOf, bestEntityOf,
    entityConfidenceOf, mergeCandidates, mergeCandidatesAux, maxByFirst, entityScore,
    parse_value, parse_implant_size, parse_brightness_contrast, findPct, findPctAux,
    findBoundedNum, findBoundedNumAux, findAnyNum, findAnyNumAux, findDim, findDimAux,
    dimAttempt, findLabeled, findLabeledAux, labeledAttempt, dropLabelCI, scanNumber,
    takeDigits, digitsToNat, digitVal, decToRat, dropSpaces, dropColonSpaces, headIsWord,
    strHasSub, strHasPre, listHasSub, listHasPre, lowerStr, lowerChars, stripChars, rmin,
    Config.rangeFor, PVal.toVal, switchTargetsOf, valueTargetsOf, validateArgs, pipeline,
    cfgEmpty, cfgBrightness, cfgSwitchHandles, noSignalOracles, oraclesControlValue,
    oraclesControlOnNoEntity])
    (by norm_num +decide [route, resolveIntent, fuzzyIntentMatch, llmClassify, controlPatterns, genClarification,
    ensureNonempty, canonicalNames, extendWithSwitches, genControlAction, genInfoResponse,
    genSizeRequest, genFallback, resolve_definition, resolveDefLoop, sortByLenDesc,
    insertByLenDesc, lookupStr, SYNONYM_TO_TERM, TERM_DEFINITIONS, FRIENDLY_NAMES,
    DEF_TRIGGERS, detectValueTarget, dedupAux, entityResultsOf, bestEntityOf,
    entityConfidenceOf, mergeCandidates, mergeCandidatesAux, maxByFirst, entityScore,
    parse_value, parse_implant_size, parse_brightness_contrast, findPct, findPctAux,
    findBoundedNum, findBoundedNumAux, findAnyNum, findAnyNumAux, findDim, findDimAux,
    dimAttempt, findLabeled, findLabeledAux, labeledAttempt, dropLabelCI, scanNumber,
    takeDigits, digitsToNat, digitVal, decToRat, dropSpaces, dropColonSpaces, headIsWord,
    strHasSub, strHasPre, listHasSub, listHasPre, lowerStr, lowerChars, stripChars, rmin,
    Config.rangeFor, PVal.toVal, switchTargetsOf, valueTargetsOf, validateArgs, pipeline,
    cfgEmpty, cfgBrightness, cfgSwitchHandles, noSignalOracles, oraclesControlValue,
    oraclesControlOnNoEntity])

/-- C2 counterexample: on a percentage-suffixed out-of-range input the
deterministic fast-path emits a tool action carrying the numeric value
150 even though the declared brightness range is 0 to 100 — the parsed
value entered the ToolAction without any range validation. -/
theorem C2_cx_fast_path_emits_out_of_range :
    route cfgBrightness noSignalOracles "set brightness to 150%" =
      .toolAction "control" ⟨"right", "brightness", "set", some (.vnum 150)⟩
        ⟨0.85, 0.75, 0.5⟩ ∧
    cfgBrightness.rangeFor "brightness" = some ⟨0, 100⟩ ∧ ¬ ((150 : ℚ) ≤ 100) := by
  refine ⟨?_, ?_, by norm_num⟩
  · norm_num +decide [route, resolveIntent, fuzzyIntentMatch, llmClassify, controlPatterns, genClarification,
    ensureNonempty, canonicalNames, extendWithSwitches, genControlAction, genInfoResponse,
    genSizeRequest, genFallback, resolve_definition, resolveDefLoop, sortByLenDesc,
    insertByLenDesc, lookupStr, SYNONYM_TO_TERM, TERM_DEFINITIONS, FRIENDLY_NAMES,
    DEF_TRIGGERS, detectValueTarget, dedupAux, entityResultsOf, bestEntityOf,
    entityConfidenceOf, mergeCandidates, mergeCandidatesAux, maxByFirst, entityScore,
    parse_value, parse_implant_size, parse_brightness_contrast, findPct, findPctAux,
    findBoundedNum, findBoundedNumAux, findAnyNum, findAnyNumAux, findDim, findDimAux,
    dimAttempt, findLabeled, findLabeledAux, labeledAttempt, dropLabelCI, scanNumber,
    takeDigits, digitsToNat, digitVal, decToRat, dropSpaces, dropColonSpaces, headIsWord,
    strHasSub, strHasPre, listHasSub, listHasPre, lowerStr, lowerChars, stripChars, rmin,
    Config.rangeFor, PVal.toVal, switchTargetsOf, valueTargetsOf, validateArgs, pipeline,
    cfgEmpty, cfgBrightness, cfgSwitchHandles, noSignalOracles, oraclesControlValue,
    oraclesControlOnNoEntity]
  · norm_num +decide [route, resolveIntent, fuzzyIntentMatch, llmClassify, controlPatterns, genClarification,
    ensureNonempty, canonicalNames, extendWithSwitches, genControlAction, genInfoResponse,
    genSizeRequest, genFallback, resolve_definition, resolveDefLoop, sortByLenDesc,
    insertByLenDesc, lookupStr, SYNONYM_TO_TERM, TERM_DEFINITIONS, FRIENDLY_NAMES,
    DEF_TRIGGERS, detectValueTarget, dedupAux, entityResultsOf, bestEntityOf,
    entityConfidenceOf, mergeCandidates, mergeCandidatesAux, maxByFirst, entityScore,
    parse_value, parse_implant_size, parse_brightness_contrast, findPct, findPctAux,
    findBoundedNum, findBoundedNumAux, findAnyNum, findAnyNumAux, findDim, findDimAux,
    dimAttempt, findLabeled, findLabeledAux, labeledAttempt, dropLabelCI, scanNumber,
    takeDigits, digitsToNat, digitVal, decToRat, dropSpaces, dropColonSpaces, headIsWord,
    strHasSub, strHasPre, listHasSub, listHasPre, lowerStr, lowerChars, stripChars, rmin,
    Config.rangeFor, PVal.toVal, switchTargetsOf, valueTargetsOf, validateArgs, pipeline,
    cfgEmpty, cfgBrightness, cfgSwitchHandles, noSignalOracles, oraclesControlValue,
    oraclesControlOnNoEntity]

/-- C2 amended: the router performs no range validation of its own — the
fast-path places even an out-of-range percentage value into the emitted
ToolAction — and the range check happens only when the caller hands the
proposed action to the ToolValidator, which rejects it naming the
declared bounds. -/
theorem C2_amended_range_check_only_in_validator :
    route cfgBrightness noSignalOracles "set brightness to 150%" =
      .toolAction "control" ⟨"right", "brightness", "set", some (.vnum 150)⟩
        ⟨0.85, 0.75, 0.5⟩ ∧
    pipeline cfgBrightness noSignalOracles "set brightness to 150%" =
      some (.error (.valueOutOfRange 0 100)) := by
  constructor
  · norm_num +decide [route, resolveIntent, fuzzyIntentMatch, llmClassify, controlPatterns, genClarification,
    ensureNonempty, canonicalNames, extendWithSwitches, genControlAction, genInfoResponse,
    genSizeRequest, genFallback, resolve_definition, resolveDefLoop, sortByLenDesc,
    insertByLenDesc, lookupStr, SYNONYM_TO_TERM, TERM_DEFINITIONS, FRIENDLY_NAMES,
    DEF_TRIGGERS, detectValueTarget, dedupAux, entityResultsOf, bestEntityOf,
    entityConfidenceOf, mergeCandidates, mergeCandidatesAux, maxByFirst, entityScore,
    parse_value, parse_implant_size, parse_brightness_contrast, findPct, findPctAux,
    findBoundedNum, findBoundedNumAux, findAnyNum, findAnyNumAux, findDim, findDimAux,
    dimAttempt, findLabeled, findLabeledAux, labeledAttempt, dropLabelCI, scanNumber,
    takeDigits, digitsToNat, digitVal, decToRat, dropSpaces, dropColonSpaces, headIsWord,
    strHasSub, strHasPre, listHasSub, listHasPre, lowerStr, lowerChars, stripChars, rmin,
    Config.rangeFor, PVal.toVal, switchTargetsOf, valueTargetsOf, validateArgs, pipeline,
    cfgEmpty, cfgBrightness, cfgSwitchHandles, noSignalOracles, oraclesControlValue,
    oraclesControlOnNoEntity]
  · norm_num +decide [route, resolveIntent, fuzzyIntentMatch, llmClassify, controlPatterns, genClarification,
    ensureNonempty, canonicalNames, extendWithSwitches, genControlAction, genInfoResponse,
    genSizeRequest, genFallback, resolve_definition, resolveDefLoop, sortByLenDesc,
    insertByLenDesc, lookupStr, SYNONYM_TO_TERM, TERM_DEFINITIONS, FRIENDLY_NAMES,
    DEF_TRIGGERS, detectValueTarget, dedupAux, entityResultsOf, bestEntityOf,
    entityConfidenceOf, mergeCandidates, mergeCandidatesAux, maxByFirst, entityScore,
    parse_value, parse_implant_size, parse_brightness_contrast, findPct, findPctAux,
    findBoundedNum, findBoundedNumAux, findAnyNum, findAnyNumAux, findDim, findDimAux,
    dimAttempt, findLabeled, findLabeledAux, labeledAttempt, dropLabelCI, scanNumber,
    takeDigits, digitsToNat, digitVal, decToRat, dropSpaces, dropColonSpaces, headIsWord,
    strHasSub, strHasPre, listHasSub, listHasPre, lowerStr, lowerChars, stripChars, rmin,
    Config.rangeFor, PVal.toVal, switchTargetsOf, valueTargetsOf, validateArgs, pipeline,
    cfgEmpty, cfgBrightness, cfgSwitchHandles, noSignalOracles, oraclesControlValue,
    oraclesControlOnNoEntity]

/-- C3 counterexample: with a confident control_on intent and no entity
candidates, route reaches the no-entity control clarification, whose
response dict carries no confidence key at all. -/
theorem C3_cx_clarification_without_confidence :
    route cfgEmpty oraclesControlOnNoEntity "turn on the gadget" =
      .clarification .whichElementToControl [.specifyTargetExample] none := by
  norm_num +decide [route, resolveIntent, fuzzyIntentMatch, llmClassify, controlPatterns, genClarification,
    ensureNonempty, canonicalNames, extendWithSwitches, genControlAction, genInfoResponse,
    genSizeRequest, genFallback, resolve_definition, resolveDefLoop, sortByLenDesc,
    insertByLenDesc, lookupStr, SYNONYM_TO_TERM, TERM_DEFINITIONS, FRIENDLY_NAMES,
    DEF_TRIGGERS, detectValueTarget, dedupAux, entityResultsOf, bestEntityOf,
    entityConfidenceOf, mergeCandidates, mergeCandidatesAux, maxByFirst, entityScore,
    parse_value, parse_implant_size, parse_brightness_contrast, findPct, findPctAux,
    findBoundedNum, findBoundedNumAux, findAnyNum, findAnyNumAux, findDim, findDimAux,
    dimAttempt, findLabeled, findLabeledAux, labeledAttempt, dropLabelCI, scanNumber,
    takeDigits, digitsToNat, digitVal, decToRat, dropSpaces, dropColonSpaces, headIsWord,
    strHasSub, strHasPre, listHasSub, listHasPre, lowerStr, lowerChars, stripChars, rmin,
    Config.rangeFor, PVal.toVal, switchTargetsOf, valueTargetsOf, validateArgs, pipeline,
    cfgEmpty, cfgBrightness, cfgSwitchHandles, noSignalOracles, oraclesControlValue,
    oraclesControlOnNoEntity]

/-- C3 amended: every decision route actually returns attaches the
intent, entity and value confidence breakdown except exactly the
no-entity control clarification and the generic fallback, which carry
no confidence key.  The no-entity info clarification is also built
without the key, but it is never returned: the unconditional logging
subscript of the info branch raises KeyError first, so it is outside
this statement about returned decisions. -/
theorem C3_amended_confidence_on_returned_decisions
    (cfg : Config) (o : Oracles) (text : String) (d : Decision)
    (hd : routeRun cfg o text = .ok d) :
    d.confAbsentOnlyWhenReturned := by
  simp only [routeRun] at hd
  repeat' split at hd
  all_goals first
    | exact Except.noConfusion hd
    | (injection hd with h
       subst h
       first
         | trivial
         | exact genControlAction_confReturned _ _ _ _
         | simp [genSizeRequest, genFallback, Decision.confAbsentOnlyWhenReturned])

/-- C3 amended witness: on the no-entity control input the router really
returns the bare control clarification, which is one of the two allowed
confidence-free sites. -/
theorem C3_amended_confidence_on_returned_decisions_w :
    (Decision.clarification .whichElementToControl [.specifyTargetExample]
      none).confAbsentOnlyWhenReturned :=
  C3_amended_confidence_on_returned_decisions cfgEmpty oraclesControlOnNoEntity
    "turn on the gadget" _ (by
      norm_num +decide [routeRun, route, resolveIntent, fuzzyIntentMatch, llmClassify,
        controlPatterns, genClarification, ensureNonempty, canonicalNames,
        extendWithSwitches, genControlAction, genInfoResponse, genSizeRequest, genFallback,
        resolve_definition, resolveDefLoop, sortByLenDesc, insertByLenDesc, lookupStr,
        SYNONYM_TO_TERM, TERM_DEFINITIONS, FRIENDLY_NAMES, DEF_TRIGGERS, detectValueTarget,
        dedupAux, entityResultsOf, bestEntityOf, entityConfidenceOf, mergeCandidates,
        mergeCandidatesAux, maxByFirst, entityScore, parse_value, parse_implant_size,
        parse_brightness_contrast, findPct, findPctAux, findBoundedNum, findBoundedNumAux,
        findAnyNum, findAnyNumAux, findDim, findDimAux, dimAttempt, findLabeled,
        findLabeledAux, labeledAttempt, dropLabelCI, scanNumber, takeDigits, digitsToNat,
        digitVal, decToRat, dropSpaces, dropColonSpaces, headIsWord, strHasSub, strHasPre,
        listHasSub, listHasPre, lowerStr, lowerChars, stripChars, rmin, Config.rangeFor,
        PVal.toVal, cfgEmpty, oraclesControlOnNoEntity])

/-- C4 counterexample: for the input of end-to-end scenario 2 the
numeric parser drops the out-of-range bare number, so the router emits
a value-request clarification and the validator is never invoked — the
pipeline does not produce the range error the claim requires. -/
theorem C4_cx_validator_never_sees_150 :
    route cfgBrightness oraclesControlValue "set brightness to 150" =
      .clarification (.whatValueFor "brightness" (some ⟨0, 100⟩))
        [.exampleSetTo "brightness", .examplePercent "brightness"]
        (some ⟨0.8, 0.8, 0⟩) ∧
    pipeline cfgBrightness oraclesControlValue "set brightness to 150" = none := by
  constructor
  · norm_num +decide [route, resolveIntent, fuzzyIntentMatch, llmClassify, controlPatterns, genClarification,
    ensureNonempty, canonicalNames, extendWithSwitches, genControlAction, genInfoResponse,
    genSizeRequest, genFallback, resolve_definition, resolveDefLoop, sortByLenDesc,
    insertByLenDesc, lookupStr, SYNONYM_TO_TERM, TERM_DEFINITIONS, FRIENDLY_NAMES,
    DEF_TRIGGERS, detectValueTarget, dedupAux, entityResultsOf, bestEntityOf,
    entityConfidenceOf, mergeCandidates, mergeCandidatesAux, maxByFirst, entityScore,
    parse_value, parse_implant_size, parse_brightness_contrast, findPct, findPctAux,
    findBoundedNum, findBoundedNumAux, findAnyNum, findAnyNumAux, findDim, findDimAux,
    dimAttempt, findLabeled, findLabeledAux, labeledAttempt, dropLabelCI, scanNumber,
    takeDigits, digitsToNat, digitVal, decToRat, dropSpaces, dropColonSpaces, headIsWord,
    strHasSub, strHasPre, listHasSub, listHasPre, lowerStr, lowerChars, stripChars, rmin,
    Config.rangeFor, PVal.toVal, switchTargetsOf, valueTargetsOf, validateArgs, pipeline,
    cfgEmpty, cfgBrightness, cfgSwitchHandles, noSignalOracles, oraclesControlValue,
    oraclesControlOnNoEntity]
  · norm_num +decide [route, resolveIntent, fuzzyIntentMatch, llmClassify, controlPatterns, genClarification,
    ensureNonempty, canonicalNames, extendWithSwitches, genControlAction, genInfoResponse,
    genSizeRequest, genFallback, resolve_definition, resolveDefLoop, sortByLenDesc,
    insertByLenDesc, lookupStr, SYNONYM_TO_TERM, TERM_DEFINITIONS, FRIENDLY_NAMES,
    DEF_TRIGGERS, detectValueTarget, dedupAux, entityResultsOf, bestEntityOf,
    entityConfidenceOf, mergeCandidates, mergeCandidatesAux, maxByFirst, entityScore,
    parse_value, parse_implant_size, parse_brightness_contrast, findPct, findPctAux,
    findBoundedNum, findBoundedNumAux, findAnyNum, findAnyNumAux, findDim, findDimAux,
    dimAttempt, findLabeled, findLabeledAux, labeledAttempt, dropLabelCI, scanNumber,
    takeDigits, digitsToNat, digitVal, decToRat, dropSpaces, dropColonSpaces, headIsWord,
    strHasSub, strHasPre, listHasSub, listHasPre, lowerStr, lowerChars, stripChars, rmin,
    Config.rangeFor, PVal.toVal, switchTargetsOf, valueTargetsOf, validateArgs, pipeline,
    cfgEmpty, cfgBrightness, cfgSwitchHandles, noSignalOracles, oraclesControlValue,
    oraclesControlOnNoEntity]

/-- C4 amended: on the bare input the router diverts to a value-request
clarification before validation (the parser returns nothing for an
out-of-range bare number); the validator error naming the range arises
when the out-of-range value actually reaches the validator — directly,
or end-to-end via the percentage fast-path input. -/
theorem C4_amended_range_error_needs_percentage :
    pipeline cfgBrightness oraclesControlValue "set brightness to 150" = none ∧
    validateArgs cfgBrightness ⟨"right", some "brightness", some "set", some (.vnum 150)⟩ =
      .error (.valueOutOfRange 0 100) ∧
    pipeline cfgBrightness oraclesControlValue "set brightness to 150%" =
      some (.error (.valueOutOfRange 0 100)) := by
  refine ⟨?_, ?_, ?_⟩
  · norm_num +decide [route, resolveIntent, fuzzyIntentMatch, llmClassify, controlPatterns, genClarification,
    ensureNonempty, canonicalNames, extendWithSwitches, genControlAction, genInfoResponse,
    genSizeRequest, genFallback, resolve_definition, resolveDefLoop, sortByLenDesc,
    insertByLenDesc, lookupStr, SYNONYM_TO_TERM, TERM_DEFINITIONS, FRIENDLY_NAMES,
    DEF_TRIGGERS, detectValueTarget, dedupAux, entityResultsOf, bestEntityOf,
    entityConfidenceOf, mergeCandidates, mergeCandidatesAux, maxByFirst, entityScore,
    parse_value, parse_implant_size, parse_brightness_contrast, findPct, findPctAux,
    findBoundedNum, findBoundedNumAux, findAnyNum, findAnyNumAux, findDim, findDimAux,
    dimAttempt, findLabeled, findLabeledAux, labeledAttempt, dropLabelCI, scanNumber,
    takeDigits, digitsToNat, digitVal, decToRat, dropSpaces, dropColonSpaces, headIsWord,
    strHasSub, strHasPre, listHasSub, listHasPre, lowerStr, lowerChars, stripChars, rmin,
    Config.rangeFor, PVal.toVal, switchTargetsOf, valueTargetsOf, validateArgs, pipeline,
    cfgEmpty, cfgBrightness, cfgSwitchHandles, noSignalOracles, oraclesControlValue,
    oraclesControlOnNoEntity]
  · norm_num +decide [route, resolveIntent, fuzzyIntentMatch, llmClassify, controlPatterns, genClarification,
    ensureNonempty, canonicalNames, extendWithSwitches, genControlAction, genInfoResponse,
    genSizeRequest, genFallback, resolve_definition, resolveDefLoop, sortByLenDesc,
    insertByLenDesc, lookupStr, SYNONYM_TO_TERM, TERM_DEFINITIONS, FRIENDLY_NAMES,
    DEF_TRIGGERS, detectValueTarget, dedupAux, entityResultsOf, bestEntityOf,
    entityConfidenceOf, mergeCandidates, mergeCandidatesAux, maxByFirst, entityScore,
    parse_value, parse_implant_size, parse_brightness_contrast, findPct, findPctAux,
    findBoundedNum, findBoundedNumAux, findAnyNum, findAnyNumAux, findDim, findDimAux,
    dimAttempt, findLabeled, findLabeledAux, labeledAttempt, dropLabelCI, scanNumber,
    takeDigits, digitsToNat, digitVal, decToRat, dropSpaces, dropColonSpaces, headIsWord,
    strHasSub, strHasPre, listHasSub, listHasPre, lowerStr, lowerChars, stripChars, rmin,
    Config.rangeFor, PVal.toVal, switchTargetsOf, valueTargetsOf, validateArgs, pipeline,
    cfgEmpty, cfgBrightness, cfgSwitchHandles, noSignalOracles, oraclesControlValue,
    oraclesControlOnNoEntity]
  · norm_num +decide [route, resolveIntent, fuzzyIntentMatch, llmClassify, controlPatterns, genClarification,
    ensureNonempty, canonicalNames, extendWithSwitches, genControlAction, genInfoResponse,
    genSizeRequest, genFallback, resolve_definition, resolveDefLoop, sortByLenDesc,
    insertByLenDesc, lookupStr, SYNONYM_TO_TERM, TERM_DEFINITIONS, FRIENDLY_NAMES,
    DEF_TRIGGERS, detectValueTarget, dedupAux, entityResultsOf, bestEntityOf,
    entityConfidenceOf, mergeCandidates, mergeCandidatesAux, maxByFirst, entityScore,
    parse_value, parse_implant_size, parse_brightness_contrast, findPct, findPctAux,
    findBoundedNum, findBoundedNumAux, findAnyNum, findAnyNumAux, findDim, findDimAux,
    dimAttempt, findLabeled, findLabeledAux, labeledAttempt, dropLabelCI, scanNumber,
    takeDigits, digitsToNat, digitVal, decToRat, dropSpaces, dropColonSpaces, headIsWord,
    strHasSub, strHasPre, listHasSub, listHasPre, lowerStr, lowerChars, stripChars, rmin,
    Config.rangeFor, PVal.toVal, switchTargetsOf, valueTargetsOf, validateArgs, pipeline,
    cfgEmpty, cfgBrightness, cfgSwitchHandles, noSignalOracles, oraclesControlValue,
    oraclesControlOnNoEntity]

end VRCore

namespace VRCore

/-- C5: on every text matching the two-number dimension pattern with the
default height range 3.0 to 4.8 and length range 6.0 to 17.0, the parser
assigns the as-written order at confidence 0.9 when it fits, the swapped
order at 0.9 when only that fits, and keeps the as-written order at the
reduced confidence 0.6 when neither fits. -/
theorem C5_dimension_disambiguation (cfg : Config) (text : String) (a b : ℚ)
    (hH : cfg.implantH = none) (hL : cfg.implantL = none)
    (hdim : findDim text = some (a, b)) :
    ((3.0 ≤ a ∧ a ≤ 4.8 ∧ 6.0 ≤ b ∧ b ≤ 17.0) →
      parse_value cfg text "auto" = some (.dims (some a) (some b), 0.9)) ∧
    (¬ (3.0 ≤ a ∧ a ≤ 4.8 ∧ 6.0 ≤ b ∧ b ≤ 17.0) →
      (3.0 ≤ b ∧ b ≤ 4.8 ∧ 6.0 ≤ a ∧ a ≤ 17.0) →
      parse_value cfg text "auto" = some (.dims (some b) (some a), 0.9)) ∧
    (¬ (3.0 ≤ a ∧ a ≤ 4.8 ∧ 6.0 ≤ b ∧ b ≤ 17.0) →
      ¬ (3.0 ≤ b ∧ b ≤ 4.8 ∧ 6.0 ≤ a ∧ a ≤ 17.0) →
      parse_value cfg text "auto" = some (.dims (some a) (some b), 0.6) ∧
        (0.6 : ℚ) < 0.9) := by
  have hbase : parse_value cfg text "auto" =
      (match parse_implant_size cfg text with
       | some r => some r
       | none => (parse_brightness_contrast cfg text).map (fun p => (.scalar p.1, p.2))) := rfl
  refine ⟨?_, ?_, ?_⟩
  · intro h1
    rw [hbase]
    simp only [parse_implant_size, hdim, hH, hL, Option.getD_none]
    rw [if_pos h1]
  · intro h1 h2
    rw [hbase]
    simp only [parse_implant_size, hdim, hH, hL, Option.getD_none]
    rw [if_neg h1, if_pos h2]
  · intro h1 h2
    refine ⟨?_, by norm_num⟩
    rw [hbase]
    simp only [parse_implant_size, hdim, hH, hL, Option.getD_none]
    rw [if_neg h1, if_neg h2]

/-- C5 witness: the spec example input parses to height 4.0 and length
11.5 at confidence 0.9. -/
theorem C5_dimension_disambiguation_w :
    parse_value cfgEmpty "4 x 11.5" "auto" = some (.dims (some 4) (some 11.5), 0.9) :=
  (C5_dimension_disambiguation cfgEmpty "4 x 11.5" 4 11.5 rfl rfl
    (by norm_num +decide [route, resolveIntent, fuzzyIntentMatch, llmClassify, controlPatterns, genClarification,
    ensureNonempty, canonicalNames, extendWithSwitches, genControlAction, genInfoResponse,
    genSizeRequest, genFallback, resolve_definition, resolveDefLoop, sortByLenDesc,
    insertByLenDesc, lookupStr, SYNONYM_TO_TERM, TERM_DEFINITIONS, FRIENDLY_NAMES,
    DEF_TRIGGERS, detectValueTarget, dedupAux, entityResultsOf, bestEntityOf,
    entityConfidenceOf, mergeCandidates, mergeCandidatesAux, maxByFirst, entityScore,
    parse_value, parse_implant_size, parse_brightness_contrast, findPct, findPctAux,
    findBoundedNum, findBoundedNumAux, findAnyNum, findAnyNumAux, findDim, findDimAux,
    dimAttempt, findLabeled, findLabeledAux, labeledAttempt, dropLabelCI, scanNumber,
    takeDigits, digitsToNat, digitVal, decToRat, dropSpaces, dropColonSpaces, headIsWord,
    strHasSub, strHasPre, listHasSub, listHasPre, lowerStr, lowerChars, stripChars, rmin,
    Config.rangeFor, PVal.toVal, switchTargetsOf, valueTargetsOf, validateArgs, pipeline,
    cfgEmpty, cfgBrightness, cfgSwitchHandles, noSignalOracles, oraclesControlValue,
    oraclesControlOnNoEntity])).1 (by norm_num)

/-- C6 counterexample: a single chunk longer than the budget makes the
returned context string longer than max_chars — the budget does not
bound the length of the output. -/
theorem C6_cx_budget_exceeded :
    build_context lookupAB 1 retrievedOne = "ab" ∧
    1 < (build_context lookupAB 1 retrievedOne).length := by
  constructor
  · norm_num +decide [build_context, buildContextPairs, buildContextLoop, joinParts, lookupAB, retrievedOne]
  · norm_num +decide [build_context, buildContextPairs, buildContextLoop, joinParts, lookupAB, retrievedOne]

/-- C6 amended: context assembly never appends the same chunk id twice,
and it stops appending once the joined text reaches the budget, so every
appended part except possibly the last fits strictly under max_chars;
the output may overshoot the budget only by its final chunk. -/
theorem C6_amended_dedup_and_budget {μ : Type} (lookup : String → Option String)
    (maxChars : ℕ) (retrieved : List (String × ℚ × μ)) (hpos : 0 < maxChars) :
    ((buildContextPairs lookup maxChars retrieved).map (fun p => p.1)).Nodup ∧
    (joinParts (((buildContextPairs lookup maxChars retrieved).map
      (fun p => p.2)).dropLast)).length < maxChars :=
  buildContextLoop_spec lookup maxChars retrieved [] [] (by simp) (by simp)
    (by
      have h0 : (joinParts (([] : List (String × String)).map (fun p => p.2))).length = 0 := rfl
      rw [h0]
      exact hpos)

/-- C6 witness: the amended bound instantiated on the one-chunk input. -/
theorem C6_amended_dedup_and_budget_w :
    ((buildContextPairs lookupAB 1 retrievedOne).map (fun p => p.1)).Nodup ∧
    (joinParts (((buildContextPairs lookupAB 1 retrievedOne).map
      (fun p => p.2)).dropLast)).length < 1 :=
  C6_amended_dedup_and_budget lookupAB 1 retrievedOne (by norm_num)

/-- C7 counterexample: the percentage-suffixed number is not treated
identically to the bare number — the same in-range value parses at
confidence 0.9 with the percent sign but 0.7 without. -/
theorem C7_cx_percentage_not_identical :
    parse_value cfgEmpty "brightness 50%" "auto" = some (.scalar 50, 0.9) ∧
    parse_value cfgEmpty "brightness 50" "auto" = some (.scalar 50, 0.7) ∧
    (0.9 : ℚ) ≠ 0.7 := by
  refine ⟨?_, ?_, by norm_num⟩
  · norm_num +decide [route, resolveIntent, fuzzyIntentMatch, llmClassify, controlPatterns, genClarification,
    ensureNonempty, canonicalNames, extendWithSwitches, genControlAction, genInfoResponse,
    genSizeRequest, genFallback, resolve_definition, resolveDefLoop, sortByLenDesc,
    insertByLenDesc, lookupStr, SYNONYM_TO_TERM, TERM_DEFINITIONS, FRIENDLY_NAMES,
    DEF_TRIGGERS, detectValueTarget, dedupAux, entityResultsOf, bestEntityOf,
    entityConfidenceOf, mergeCandidates, mergeCandidatesAux, maxByFirst, entityScore,
    parse_value, parse_implant_size, parse_brightness_contrast, findPct, findPctAux,
    findBoundedNum, findBoundedNumAux, findAnyNum, findAnyNumAux, findDim, findDimAux,
    dimAttempt, findLabeled, findLabeledAux, labeledAttempt, dropLabelCI, scanNumber,
    takeDigits, digitsToNat, digitVal, decToRat, dropSpaces, dropColonSpaces, headIsWord,
    strHasSub, strHasPre, listHasSub, listHasPre, lowerStr, lowerChars, stripChars, rmin,
    Config.rangeFor, PVal.toVal, switchTargetsOf, valueTargetsOf, validateArgs, pipeline,
    cfgEmpty, cfgBrightness, cfgSwitchHandles, noSignalOracles, oraclesControlValue,
    oraclesControlOnNoEntity]
  · norm_num +decide [route, resolveIntent, fuzzyIntentMatch, llmClassify, controlPatterns, genClarification,
    ensureNonempty, canonicalNames, extendWithSwitches, genControlAction, genInfoResponse,
    genSizeRequest, genFallback, resolve_definition, resolveDefLoop, sortByLenDesc,
    insertByLenDesc, lookupStr, SYNONYM_TO_TERM, TERM_DEFINITIONS, FRIENDLY_NAMES,
    DEF_TRIGGERS, detectValueTarget, dedupAux, entityResultsOf, bestEntityOf,
    entityConfidenceOf, mergeCandidates, mergeCandidatesAux, maxByFirst, entityScore,
    parse_value, parse_implant_size, parse_brightness_contrast, findPct, findPctAux,
    findBoundedNum, findBoundedNumAux, findAnyNum, findAnyNumAux, findDim, findDimAux,
    dimAttempt, findLabeled, findLabeledAux, labeledAttempt, dropLabelCI, scanNumber,
    takeDigits, digitsToNat, digitVal, decToRat, dropSpaces, dropColonSpaces, headIsWord,
    strHasSub, strHasPre, listHasSub, listHasPre, lowerStr, lowerChars, stripChars, rmin,
    Config.rangeFor, PVal.toVal, switchTargetsOf, valueTargetsOf, validateArgs, pipeline,
    cfgEmpty, cfgBrightness, cfgSwitchHandles, noSignalOracles, oraclesControlValue,
    oraclesControlOnNoEntity]

/-- C7 amended: a percentage-suffixed number and a bare number yield the
same numeric value, but at different confidence tiers — a percentage
match scores 0.9 in range and 0.5 out of range, while a bare number
scores 0.7 in range and is rejected entirely out of range. -/
theorem C7_amended_percentage_tiers (cfg : Config) (text : String) (v : ℚ)
    (hb : strHasSub (lowerStr text) "brightness" = true) :
    (findPct text = some v →
      parse_brightness_contrast cfg text =
        some (v, if ((cfg.rangeFor "brightness").getD ⟨0, 100⟩).rmin ≤ v ∧
            v ≤ ((cfg.rangeFor "brightness").getD ⟨0, 100⟩).rmax then 0.9 else 0.5)) ∧
    (findPct text = none → findBoundedNum text = some v →
      parse_brightness_contrast cfg text =
        (if ((cfg.rangeFor "brightness").getD ⟨0, 100⟩).rmin ≤ v ∧
            v ≤ ((cfg.rangeFor "brightness").getD ⟨0, 100⟩).rmax then some (v, 0.7)
         else none)) := by
  constructor
  · intro hpct
    simp only [parse_brightness_contrast, hb, if_true, hpct]
    split <;> rfl
  · intro hpct hbare
    simp only [parse_brightness_contrast, hb, if_true, hpct, hbare]

/-- C7 witness: the amended tiers instantiated on concrete texts, the
percentage input scoring 0.9 and the bare input 0.7 on the same value. -/
theorem C7_amended_percentage_tiers_w :
    parse_brightness_contrast cfgEmpty "brightness 50%" = some (50, 0.9) ∧
    parse_brightness_contrast cfgEmpty "brightness 50" = some (50, 0.7) := by
  constructor
  · have h := (C7_amended_percentage_tiers cfgEmpty "brightness 50%" 50 (by decide)).1
      (by norm_num +decide [route, resolveIntent, fuzzyIntentMatch, llmClassify, controlPatterns, genClarification,
    ensureNonempty, canonicalNames, extendWithSwitches, genControlAction, genInfoResponse,
    genSizeRequest, genFallback, resolve_definition, resolveDefLoop, sortByLenDesc,
    insertByLenDesc, lookupStr, SYNONYM_TO_TERM, TERM_DEFINITIONS, FRIENDLY_NAMES,
    DEF_TRIGGERS, detectValueTarget, dedupAux, entityResultsOf, bestEntityOf,
    entityConfidenceOf, mergeCandidates, mergeCandidatesAux, maxByFirst, entityScore,
    parse_value, parse_implant_size, parse_brightness_contrast, findPct, findPctAux,
    findBoundedNum, findBoundedNumAux, findAnyNum, findAnyNumAux, findDim, findDimAux,
    dimAttempt, findLabeled, findLabeledAux, labeledAttempt, dropLabelCI, scanNumber,
    takeDigits, digitsToNat, digitVal, decToRat, dropSpaces, dropColonSpaces, headIsWord,
    strHasSub, strHasPre, listHasSub, listHasPre, lowerStr, lowerChars, stripChars, rmin,
    Config.rangeFor, PVal.toVal, switchTargetsOf, valueTargetsOf, validateArgs, pipeline,
    cfgEmpty, cfgBrightness, cfgSwitchHandles, noSignalOracles, oraclesControlValue,
    oraclesControlOnNoEntity])
    rw [h]
    norm_num [cfgEmpty, Config.rangeFor]
  · have h := (C7_amended_percentage_tiers cfgEmpty "brightness 50" 50 (by decide)).2
      (by norm_num +decide [route, resolveIntent, fuzzyIntentMatch, llmClassify, controlPatterns, genClarification,
    ensureNonempty, canonicalNames, extendWithSwitches, genControlAction, genInfoResponse,
    genSizeRequest, genFallback, resolve_definition, resolveDefLoop, sortByLenDesc,
    insertByLenDesc, lookupStr, SYNONYM_TO_TERM, TERM_DEFINITIONS, FRIENDLY_NAMES,
    DEF_TRIGGERS, detectValueTarget, dedupAux, entityResultsOf, bestEntityOf,
    entityConfidenceOf, mergeCandidates, mergeCandidatesAux, maxByFirst, entityScore,
    parse_value, parse_implant_size, parse_brightness_contrast, findPct, findPctAux,
    findBoundedNum, findBoundedNumAux, findAnyNum, findAnyNumAux, findDim, findDimAux,
    dimAttempt, findLabeled, findLabeledAux, labeledAttempt, dropLabelCI, scanNumber,
    takeDigits, digitsToNat, digitVal, decToRat, dropSpaces, dropColonSpaces, headIsWord,
    strHasSub, strHasPre, listHasSub, listHasPre, lowerStr, lowerChars, stripChars, rmin,
    Config.rangeFor, PVal.toVal, switchTargetsOf, valueTargetsOf, validateArgs, pipeline,
    cfgEmpty, cfgBrightness, cfgSwitchHandles, noSignalOracles, oraclesControlValue,
    oraclesControlOnNoEntity]) (by norm_num +decide [route, resolveIntent, fuzzyIntentMatch, llmClassify, controlPatterns, genClarification,
    ensureNonempty, canonicalNames, extendWithSwitches, genControlAction, genInfoResponse,
    genSizeRequest, genFallback, resolve_definition, resolveDefLoop, sortByLenDesc,
    insertByLenDesc, lookupStr, SYNONYM_TO_TERM, TERM_DEFINITIONS, FRIENDLY_NAMES,
    DEF_TRIGGERS, detectValueTarget, dedupAux, entityResultsOf, bestEntityOf,
    entityConfidenceOf, mergeCandidates, mergeCandidatesAux, maxByFirst, entityScore,
    parse_value, parse_implant_size, parse_brightness_contrast, findPct, findPctAux,
    findBoundedNum, findBoundedNumAux, findAnyNum, findAnyNumAux, findDim, findDimAux,
    dimAttempt, findLabeled, findLabeledAux, labeledAttempt, dropLabelCI, scanNumber,
    takeDigits, digitsToNat, digitVal, decToRat, dropSpaces, dropColonSpaces, headIsWord,
    strHasSub, strHasPre, listHasSub, listHasPre, lowerStr, lowerChars, stripChars, rmin,
    Config.rangeFor, PVal.toVal, switchTargetsOf, valueTargetsOf, validateArgs, pipeline,
    cfgEmpty, cfgBrightness, cfgSwitchHandles, noSignalOracles, oraclesControlValue,
    oraclesControlOnNoEntity])
    rw [h]
    norm_num [cfgEmpty, Config.rangeFor]

end VRCore

namespace VRCore

/-- C8 counterexample: with the implants target not configured as a
switch or value entity, a left-hand set-on action on implants passes
validation even though implants is not the skull_model target — the
left-hand rule does not cover the hard-coded implants branch. -/
theorem C8_cx_left_hand_implants_accepted :
    validateArgs cfgEmpty ⟨"left", some "implants", some "set", some (.vstr "on")⟩ =
      .ok ⟨"left", "implants", "set", .vstr "on"⟩ ∧
    ("implants" : String) ≠ "skull_model" := by
  constructor
  · norm_num +decide [route, resolveIntent, fuzzyIntentMatch, llmClassify, controlPatterns, genClarification,
    ensureNonempty, canonicalNames, extendWithSwitches, genControlAction, genInfoResponse,
    genSizeRequest, genFallback, resolve_definition, resolveDefLoop, sortByLenDesc,
    insertByLenDesc, lookupStr, SYNONYM_TO_TERM, TERM_DEFINITIONS, FRIENDLY_NAMES,
    DEF_TRIGGERS, detectValueTarget, dedupAux, entityResultsOf, bestEntityOf,
    entityConfidenceOf, mergeCandidates, mergeCandidatesAux, maxByFirst, entityScore,
    parse_value, parse_implant_size, parse_brightness_contrast, findPct, findPctAux,
    findBoundedNum, findBoundedNumAux, findAnyNum, findAnyNumAux, findDim, findDimAux,
    dimAttempt, findLabeled, findLabeledAux, labeledAttempt, dropLabelCI, scanNumber,
    takeDigits, digitsToNat, digitVal, decToRat, dropSpaces, dropColonSpaces, headIsWord,
    strHasSub, strHasPre, listHasSub, listHasPre, lowerStr, lowerChars, stripChars, rmin,
    Config.rangeFor, PVal.toVal, switchTargetsOf, valueTargetsOf, validateArgs, pipeline,
    cfgEmpty, cfgBrightness, cfgSwitchHandles, noSignalOracles, oraclesControlValue,
    oraclesControlOnNoEntity]
  · decide

/-- C8 amended: the left-hand prohibition applies exactly to the
configured switch targets (type switch) and value targets (type
control) other than skull_model; a left-hand action on any such target
is rejected with the constraint-violation error, while the hard-coded
implants branch is outside the rule unless implants is declared with
one of those types. -/
theorem C8_amended_left_hand_rule (cfg : Config) (target op : String) (value : Option Val)
    (htgt : target ∈ switchTargetsOf cfg ∨ target ∈ valueTargetsOf cfg)
    (hskull : target ≠ "skull_model") (hop : op = "set" ∨ op = "toggle") :
    validateArgs cfg ⟨"left", some target, some op, value⟩ = .error .leftHandForbidden := by
  simp only [validateArgs]
  rw [if_neg (not_not_intro (Or.inl trivial)), if_neg (not_not_intro hop),
    if_pos ⟨trivial, htgt, hskull⟩]

/-- C8 witness: a left-hand action on a configured switch target other
than skull_model is rejected by the left-hand rule. -/
theorem C8_amended_left_hand_rule_w :
    validateArgs cfgSwitchHandles ⟨"left", some "handles", some "set", some (.vstr "on")⟩ =
      .error .leftHandForbidden :=
  C8_amended_left_hand_rule cfgSwitchHandles "handles" "set" (some (.vstr "on"))
    (Or.inl (by decide)) (by decide) (Or.inl rfl)

/-- C9 is refuted by a crash the claim forbids: on an ordinary info
question with no resolvable entity (classifier disabled and entity
catalog empty, the state of the repository as shipped), the info branch
builds the structured no-entity clarification the claim calls for, but
the unconditional logging subscript of the answer key raises KeyError
before route can return it.  The first conjunct evaluates the executed
router to the error outcome at the failing input; the second shows the
structured clarification the branch had built and, per the claim, the
spec, and the repository eval fixture for a bare what-is input, should
have been returned. -/
theorem C9_info_branch_raises_keyerror :
    routeRun cfgEmpty oraclesNoConfig "what is a zorblax" = .error () ∧
    route cfgEmpty oraclesNoConfig "what is a zorblax" =
      .clarification .whatToKnowAbout [.specifyElementExample] none := by
  constructor
  · norm_num +decide [routeRun, route, resolveIntent, fuzzyIntentMatch, llmClassify, controlPatterns,
    genClarification, ensureNonempty, canonicalNames, extendWithSwitches,
    genControlAction, genInfoResponse, genSizeRequest, genFallback, resolve_definition,
    resolveDefLoop, sortByLenDesc, insertByLenDesc, lookupStr, SYNONYM_TO_TERM,
    TERM_DEFINITIONS, FRIENDLY_NAMES, DEF_TRIGGERS, detectValueTarget, dedupAux,
    entityResultsOf, bestEntityOf, entityConfidenceOf, mergeCandidates,
    mergeCandidatesAux, maxByFirst, entityScore, parse_value, parse_implant_size,
    parse_brightness_contrast, findPct, findPctAux, findBoundedNum, findBoundedNumAux,
    findAnyNum, findAnyNumAux, findDim, findDimAux, dimAttempt, findLabeled,
    findLabeledAux, labeledAttempt, dropLabelCI, scanNumber, takeDigits, digitsToNat,
    digitVal, decToRat, dropSpaces, dropColonSpaces, headIsWord, strHasSub, strHasPre,
    listHasSub, listHasPre, lowerStr, lowerChars, stripChars, rmin, Config.rangeFor,
    PVal.toVal, cfgEmpty, oraclesNoConfig]
  · norm_num +decide [routeRun, route, resolveIntent, fuzzyIntentMatch, llmClassify, controlPatterns,
    genClarification, ensureNonempty, canonicalNames, extendWithSwitches,
    genControlAction, genInfoResponse, genSizeRequest, genFallback, resolve_definition,
    resolveDefLoop, sortByLenDesc, insertByLenDesc, lookupStr, SYNONYM_TO_TERM,
    TERM_DEFINITIONS, FRIENDLY_NAMES, DEF_TRIGGERS, detectValueTarget, dedupAux,
    entityResultsOf, bestEntityOf, entityConfidenceOf, mergeCandidates,
    mergeCandidatesAux, maxByFirst, entityScore, parse_value, parse_implant_size,
    parse_brightness_contrast, findPct, findPctAux, findBoundedNum, findBoundedNumAux,
    findAnyNum, findAnyNumAux, findDim, findDimAux, dimAttempt, findLabeled,
    findLabeledAux, labeledAttempt, dropLabelCI, scanNumber, takeDigits, digitsToNat,
    digitVal, decToRat, dropSpaces, dropColonSpaces, headIsWord, strHasSub, strHasPre,
    listHasSub, listHasPre, lowerStr, lowerChars, stripChars, rmin, Config.rangeFor,
    PVal.toVal, cfgEmpty, oraclesNoConfig]

/-- With a parsed value and an unambiguous lexical value target, route
takes the deterministic fast-path and emits the control tool action. -/
theorem route_fast_action (cfg : Config) (o : Oracles) (text : String)
    (pv : PVal) (conf : ℚ) (tgt : String) (ms : List String)
    (hp : parse_value cfg text "auto" = some (pv, conf))
    (hd : detectValueTarget cfg text = (some tgt, ms)) :
    route cfg o text =
      .toolAction "control" ⟨"right", tgt, "set", some pv.toVal⟩ ⟨0.85, 0.75, conf⟩ := by
  simp only [route, hp, hd]

/-- C10: in auto-detect mode the parser tries implant sizes before
brightness and contrast, so a text whose first number lies in the
default implant height range 3.0 to 4.8 or length range 6.0 to 17.0,
and that matches neither the two-number nor both labeled dimension
patterns, parses to a one-key dimension mapping at confidence 0.5 —
whatever control the text names — and the fast-path then places that
mapping, not a scalar, into the emitted ToolAction value. -/
theorem C10_auto_tries_implant_first (cfg : Config) (o : Oracles) (text : String) (v : ℚ)
    (hH : cfg.implantH = none) (hL : cfg.implantL = none)
    (hdim : findDim text = none)
    (hlab : findLabeled "height" text = none ∨ findLabeled "length" text = none)
    (hnum : findAnyNum text = some v) :
    ((3.0 ≤ v ∧ v ≤ 4.8) →
      parse_value cfg text "auto" = some (.dims (some v) none, 0.5) ∧
      ∀ tgt ms, detectValueTarget cfg text = (some tgt, ms) →
        route cfg o text =
          .toolAction "control" ⟨"right", tgt, "set", some (.vdims (some v) none)⟩
            ⟨0.85, 0.75, 0.5⟩) ∧
    ((6.0 ≤ v ∧ v ≤ 17.0) →
      parse_value cfg text "auto" = some (.dims none (some v), 0.5) ∧
      ∀ tgt ms, detectValueTarget cfg text = (some tgt, ms) →
        route cfg o text =
          .toolAction "control" ⟨"right", tgt, "set", some (.vdims none (some v))⟩
            ⟨0.85, 0.75, 0.5⟩) := by
  have hbase : parse_value cfg text "auto" =
      (match parse_implant_size cfg text with
       | some r => some r
       | none => (parse_brightness_contrast cfg text).map (fun p => (.scalar p.1, p.2))) := rfl
  constructor
  · intro hin
    have hpi : parse_implant_size cfg text = some (.dims (some v) none, 0.5) := by
      simp only [parse_implant_size, hdim, hH, hL, Option.getD_none, hnum]
      cases hh : findLabeled "height" text with
      | none =>
        cases hl : findLabeled "length" text with
        | none =>
          simp only [hh, hl]
          rw [if_pos hin]
        | some lv =>
          simp only [hh, hl]
          rw [if_pos hin]
      | some hv =>
        have hl : findLabeled "length" text = none := by
          rcases hlab with h | h
          · rw [h] at hh
            exact Option.noConfusion hh
          · exact h
        simp only [hh, hl]
        rw [if_pos hin]
    have hpv : parse_value cfg text "auto" = some (.dims (some v) none, 0.5) := by
      rw [hbase, hpi]
    exact ⟨hpv, fun tgt ms hd => route_fast_action cfg o text _ _ tgt ms hpv hd⟩
  · intro hin
    have hneg : ¬ (3.0 ≤ v ∧ v ≤ 4.8) := by
      rintro ⟨-, h2⟩
      have h6 : (6.0 : ℚ) ≤ v := hin.1
      norm_num at h2 h6
      linarith
    have hpi : parse_implant_size cfg text = some (.dims none (some v), 0.5) := by
      simp only [parse_implant_size, hdim, hH, hL, Option.getD_none, hnum]
      cases hh : findLabeled "height" text with
      | none =>
        cases hl : findLabeled "length" text with
        | none =>
          simp only [hh, hl]
          rw [if_neg hneg, if_pos hin]
        | some lv =>
          simp only [hh, hl]
          rw [if_neg hneg, if_pos hin]
      | some hv =>
        have hl : findLabeled "length" text = none := by
          rcases hlab with h | h
          · rw [h] at hh
            exact Option.noConfusion hh
          · exact h
        simp only [hh, hl]
        rw [if_neg hneg, if_pos hin]
    have hpv : parse_value cfg text "auto" = some (.dims none (some v), 0.5) := by
      rw [hbase, hpi]
    exact ⟨hpv, fun tgt ms hd => route_fast_action cfg o text _ _ tgt ms hpv hd⟩

/-- C10 witness: the input names brightness, yet its number 10 falls in
the implant length range, so the fast-path tool action for the
brightness target carries the one-key dimension mapping. -/
theorem C10_auto_tries_implant_first_w :
    parse_value cfgBrightness "set brightness to 10" "auto" =
      some (.dims none (some 10), 0.5) ∧
    route cfgBrightness noSignalOracles "set brightness to 10" =
      .toolAction "control" ⟨"right", "brightness", "set", some (.vdims none (some 10))⟩
        ⟨0.85, 0.75, 0.5⟩ := by
  have h := (C10_auto_tries_implant_first cfgBrightness noSignalOracles
    "set brightness to 10" 10 rfl rfl
    (by norm_num +decide [route, resolveIntent, fuzzyIntentMatch, llmClassify, controlPatterns, genClarification,
    ensureNonempty, canonicalNames, extendWithSwitches, genControlAction, genInfoResponse,
    genSizeRequest, genFallback, resolve_definition, resolveDefLoop, sortByLenDesc,
    insertByLenDesc, lookupStr, SYNONYM_TO_TERM, TERM_DEFINITIONS, FRIENDLY_NAMES,
    DEF_TRIGGERS, detectValueTarget, dedupAux, entityResultsOf, bestEntityOf,
    entityConfidenceOf, mergeCandidates, mergeCandidatesAux, maxByFirst, entityScore,
    parse_value, parse_implant_size, parse_brightness_contrast, findPct, findPctAux,
    findBoundedNum, findBoundedNumAux, findAnyNum, findAnyNumAux, findDim, findDimAux,
    dimAttempt, findLabeled, findLabeledAux, labeledAttempt, dropLabelCI, scanNumber,
    takeDigits, digitsToNat, digitVal, decToRat, dropSpaces, dropColonSpaces, headIsWord,
    strHasSub, strHasPre, listHasSub, listHasPre, lowerStr, lowerChars, stripChars, rmin,
    Config.rangeFor, PVal.toVal, switchTargetsOf, valueTargetsOf, validateArgs, pipeline,
    cfgEmpty, cfgBrightness, cfgSwitchHandles, noSignalOracles, oraclesControlValue,
    oraclesControlOnNoEntity])
    (Or.inl (by norm_num +decide [route, resolveIntent, fuzzyIntentMatch, llmClassify, controlPatterns, genClarification,
    ensureNonempty, canonicalNames, extendWithSwitches, genControlAction, genInfoResponse,
    genSizeRequest, genFallback, resolve_definition, resolveDefLoop, sortByLenDesc,
    insertByLenDesc, lookupStr, SYNONYM_TO_TERM, TERM_DEFINITIONS, FRIENDLY_NAMES,
    DEF_TRIGGERS, detectValueTarget, dedupAux, entityResultsOf, bestEntityOf,
    entityConfidenceOf, mergeCandidates, mergeCandidatesAux, maxByFirst, entityScore,
    parse_value, parse_implant_size, parse_brightness_contrast, findPct, findPctAux,
    findBoundedNum, findBoundedNumAux, findAnyNum, findAnyNumAux, findDim, findDimAux,
    dimAttempt, findLabeled, findLabeledAux, labeledAttempt, dropLabelCI, scanNumber,
    takeDigits, digitsToNat, digitVal, decToRat, dropSpaces, dropColonSpaces, headIsWord,
    strHasSub, strHasPre, listHasSub, listHasPre, lowerStr, lowerChars, stripChars, rmin,
    Config.rangeFor, PVal.toVal, switchTargetsOf, valueTargetsOf, validateArgs, pipeline,
    cfgEmpty, cfgBrightness, cfgSwitchHandles, noSignalOracles, oraclesControlValue,
    oraclesControlOnNoEntity]))
    (by norm_num +decide [route, resolveIntent, fuzzyIntentMatch, llmClassify, controlPatterns, genClarification,
    ensureNonempty, canonicalNames, extendWithSwitches, genControlAction, genInfoResponse,
    genSizeRequest, genFallback, resolve_definition, resolveDefLoop, sortByLenDesc,
    insertByLenDesc, lookupStr, SYNONYM_TO_TERM, TERM_DEFINITIONS, FRIENDLY_NAMES,
    DEF_TRIGGERS, detectValueTarget, dedupAux, entityResultsOf, bestEntityOf,
    entityConfidenceOf, mergeCandidates, mergeCandidatesAux, maxByFirst, entityScore,
    parse_value, parse_implant_size, parse_brightness_contrast, findPct, findPctAux,
    findBoundedNum, findBoundedNumAux, findAnyNum, findAnyNumAux, findDim, findDimAux,
    dimAttempt, findLabeled, findLabeledAux, labeledAttempt, dropLabelCI, scanNumber,
    takeDigits, digitsToNat, digitVal, decToRat, dropSpaces, dropColonSpaces, headIsWord,
    strHasSub, strHasPre, listHasSub, listHasPre, lowerStr, lowerChars, stripChars, rmin,
    Config.rangeFor, PVal.toVal, switchTargetsOf, valueTargetsOf, validateArgs, pipeline,
    cfgEmpty, cfgBrightness, cfgSwitchHandles, noSignalOracles, oraclesControlValue,
    oraclesControlOnNoEntity])).2 (by norm_num)
  exact ⟨h.1, h.2 "brightness" ["brightness"] (by norm_num +decide [route, resolveIntent, fuzzyIntentMatch, llmClassify, controlPatterns, genClarification,
    ensureNonempty, canonicalNames, extendWithSwitches, genControlAction, genInfoResponse,
    genSizeRequest, genFallback, resolve_definition, resolveDefLoop, sortByLenDesc,
    insertByLenDesc, lookupStr, SYNONYM_TO_TERM, TERM_DEFINITIONS, FRIENDLY_NAMES,
    DEF_TRIGGERS, detectValueTarget, dedupAux, entityResultsOf, bestEntityOf,
    entityConfidenceOf, mergeCandidates, mergeCandidatesAux, maxByFirst, entityScore,
    parse_value, parse_implant_size, parse_brightness_contrast, findPct, findPctAux,
    findBoundedNum, findBoundedNumAux, findAnyNum, findAnyNumAux, findDim, findDimAux,
    dimAttempt, findLabeled, findLabeledAux, labeledAttempt, dropLabelCI, scanNumber,
    takeDigits, digitsToNat, digitVal, decToRat, dropSpaces, dropColonSpaces, headIsWord,
    strHasSub, strHasPre, listHasSub, listHasPre, lowerStr, lowerChars, stripChars, rmin,
    Config.rangeFor, PVal.toVal, switchTargetsOf, valueTargetsOf, validateArgs, pipeline,
    cfgEmpty, cfgBrightness, cfgSwitchHandles, noSignalOracles, oraclesControlValue,
    oraclesControlOnNoEntity])⟩

end VRCore
